import Mathlib

/-!
Verification of the graph-compiler core of the `egui_node_graph` MME shader
graph example (`egui_node_graph_example`): the socket type registry, the
postorder topological traversal, the code generator, and the effect-file
saving logic.

The Rust sources embedded here are
`src/egui_node_graph_example/src/app.rs` (data types, registry,
`postorder_traversal`, `code_gen`, `save_fx_file`),
`src/egui_node_graph_example/src/types.rs` (the extended node-kind
enumeration and its `NODE_TYPE_INFOS` registry) and
`src/egui_node_graph_example/src/hlsl.rs` (the fixed header and footer
text `HLSL_0` and `HLSL_1`).

The graph container (`Graph`, `NodeId`, `InputId`, `OutputId`,
`connection`, `input_ids`, node `outputs`) comes from the
`egui_node_graph` library crate, whose sources are not part of the
example sources; it is modelled from the specification's data-model
section (nodes with ordered input and output slots, a connection map
from input slots to output slots, and every output slot owned by one
node).

Rust `f32` values only flow into the generated code through their
`Display` rendering (`value.to_string()` and `format!`); an `f32` is
therefore modelled as its decimal `Display` text, which also keeps every
definition executable.
-/

/-- Model of a Rust `f32` as carried by the graph: the value is
represented by its `Display` rendering (the exact decimal text Rust
prints for it, e.g. `"0"` for `0.0`, `"0.5"` for `0.5`).  The code
generator only ever consumes floats through `to_string`/`format!`. -/
structure F32 where
  disp : String
deriving DecidableEq, Repr

/-- `MyDataType` from app.rs: the closed set of socket data types. -/
inductive MyDataType where
  | Scalar
  | Vec3
deriving DecidableEq, Repr

/-- `MyValueType` from app.rs: a constant value stored in an input slot. -/
inductive MyValueType where
  | Vec3 (value : F32 × F32 × F32)
  | Scalar (value : F32)
deriving DecidableEq, Repr

/-- `MyValueType::default_scalar()` from app.rs (`Scalar { value: 0.0 }`;
`0.0f32` displays as `"0"`). -/
def MyValueType.default_scalar : MyValueType := .Scalar ⟨"0"⟩

/-- `MyValueType::default_vector()` from app.rs (`Vec3 { value: [0.0; 3] }`). -/
def MyValueType.default_vector : MyValueType := .Vec3 (⟨"0"⟩, ⟨"0"⟩, ⟨"0"⟩)

deriving instance DecidableEq for Except

/-- `InputSocketType` from app.rs.  `default : Result<MyValueType, String>`
is the default-resolution: `Ok` a literal value, `Err` a verbatim builtin
expression string. -/
structure InputSocketType where
  name : String
  ty : MyDataType
  default : Except String MyValueType
deriving DecidableEq, Repr

/-- `OutputSocketType` from app.rs. -/
structure OutputSocketType where
  name : String
  ty : MyDataType
deriving DecidableEq, Repr

/-- `NodeTypeInfo` from app.rs. -/
structure NodeTypeInfo where
  label : String
  categories : List String
  input_sockets : List InputSocketType
  output_sockets : List OutputSocketType
deriving DecidableEq, Repr

/-- `MyNodeType` from app.rs: the node-kind enumeration of the editor. -/
inductive MyNodeType where
  | MakeScalar
  | AddScalar
  | SubtractScalar
  | MakeVector
  | AddVector
  | SubtractVector
  | VectorTimesScalar
  | NormalDirection
  | LightDirection
  | DotProduct
  | Main
  | FloatToVector3
  | Clamp01Scalar
  | Clamp01Vector
  | FMAScalar
  | FMAVector
  | UV0
  | MainTexure2D
  | MatCapTexure2D
  | ToonTexure2D
deriving DecidableEq, Repr

/-- `MyNodeType::iter()` (derived `EnumIter`): all variants in
declaration order. -/
def MyNodeType.all : List MyNodeType :=
  [.MakeScalar, .AddScalar, .SubtractScalar, .MakeVector, .AddVector,
   .SubtractVector, .VectorTimesScalar, .NormalDirection, .LightDirection,
   .DotProduct, .Main, .FloatToVector3, .Clamp01Scalar, .Clamp01Vector,
   .FMAScalar, .FMAVector, .UV0, .MainTexure2D, .MatCapTexure2D,
   .ToonTexure2D]

/-- Modelled from the spec: a node of the `egui_node_graph` library's
`Graph` (the library crate is not among the example's sources).  Per the
spec's data model a node has a human label, its kind (the app stores the
template in the node's user data), an ordered list of named input slots
and an ordered list of named output slots, each slot having an identity.
Slot identities are modelled as natural numbers. -/
structure GNode where
  label : String
  template : MyNodeType
  inputs : List (String × Nat)
  outputs : List (String × Nat)

/-- Modelled from the spec: the `egui_node_graph` library's `Graph` as
used by app.rs.  `nodes` is node lookup (`graph[node_id]`),
`inputValue` is the stored constant of an input slot
(`graph[input_id].value`), `connection` is the at most one producer per
input slot (`graph.connection(input_id)`), and `outputNode` is the owner
of an output slot (`graph[output_id].node`). -/
structure MyGraph where
  nodes : Nat → GNode
  inputValue : Nat → MyValueType
  connection : Nat → Option Nat
  outputNode : Nat → Nat

/-- `graph[node_id].input_ids()`: the ordered input slot ids of a node. -/
def MyGraph.inputIds (g : MyGraph) (nid : Nat) : List Nat :=
  (g.nodes nid).inputs.map Prod.snd

/-- The `for input_id in graph[node_id].input_ids()` loop of
`postorder_traversal`, threading the `collect` accumulator; `recur` is
the recursive call into a producer node (the traversal one fuel level
down). -/
def postorderInputs (g : MyGraph)
    (recur : Nat → List Nat → Option (List Nat)) :
    List Nat → List Nat → Option (List Nat)
  | [], collect => some collect
  | i :: rest, collect =>
    match g.connection i with
    | none => postorderInputs g recur rest collect
    | some otherOutputId =>
      let nextNid := g.outputNode otherOutputId
      if nextNid ∈ collect then
        postorderInputs g recur rest collect
      else
        match recur nextNid collect with
        | none => none
        | some c => postorderInputs g recur rest c

/-- `postorder_traversal` from app.rs, with an explicit recursion-depth
fuel making the (possibly diverging) Rust recursion total: `none` models
the unbounded recursion that fuel exhaustion stands for.  For each input
slot of `nid`, if connected and the producer has not been collected yet,
recurse into the producer; finally push `nid`. -/
def postorder_traversal (g : MyGraph) (fuel : Nat) :
    Nat → List Nat → Option (List Nat) :=
  match fuel with
  | 0 => fun _ _ => none
  | f + 1 => fun nid collect =>
    match postorderInputs g (postorder_traversal g f) (g.inputIds nid) collect with
    | none => none
    | some c => some (c ++ [nid])

/-- The dependency edge relation of the graph: `GEdge g a b` holds when
some input slot of node `a` is connected to an output slot owned by node
`b` (the relation `postorder_traversal` recurses along). -/
def GEdge (g : MyGraph) (a b : Nat) : Prop :=
  ∃ i ∈ g.inputIds a, ∃ oid, g.connection i = some oid ∧ g.outputNode oid = b

/-- Reachability along connected input sockets (reflexive-transitive
closure of `GEdge`). -/
def GReach (g : MyGraph) : Nat → Nat → Prop :=
  Relation.ReflTransGen (GEdge g)

/-- Acyclicity, stated as the existence of a topological rank strictly
decreasing along dependency edges (for the finite graphs the editor
builds this is equivalent to the absence of directed cycles). -/
def RankedAcyclic (g : MyGraph) (rank : Nat → Nat) : Prop :=
  ∀ a b, GEdge g a b → rank b < rank a

/-- The type-text match used by `code_gen`'s `format!` calls:
`MyDataType::Scalar => "float "` (note the trailing space),
`MyDataType::Vec3 => "float3"`. -/
def typeStr : MyDataType → String
  | .Scalar => "float "
  | .Vec3 => "float3"

/-- The rendering of a stored slot value in `code_gen`'s unconnected /
literal-default branch: `format!("float3({}, {}, {})", ...)` for a
vector, `value.to_string()` for a scalar. -/
def renderValue : MyValueType → String
  | .Vec3 (a, b, c) =>
    "float3(" ++ a.disp ++ ", " ++ b.disp ++ ", " ++ c.disp ++ ")"
  | .Scalar s => s.disp

/-- `usize::MAX` on a 64-bit target: the initial value of `output_index`
in `code_gen`'s producer-output scan. -/
def usizeMAX : Nat := 2 ^ 64 - 1

/-- `code_gen`'s scan for the positional index of a producer's output
slot: iterate the producer's `outputs` with its index, remembering the
(last) position whose slot id matches. -/
def scanOutputIndex (outs : List (String × Nat)) (target : Nat) : Nat :=
  outs.enum.foldl (fun acc p => if p.2.2 == target then p.1 else acc) usizeMAX

/-- The `indexs` hash map of `code_gen` built by inserting
`(node, position)` for each position of the topological order in turn;
later inserts overwrite earlier ones, modelled by consing in front. -/
def indexsList (ord : List Nat) : List (Nat × Nat) :=
  ord.enum.foldl (fun m p => (p.2, p.1) :: m) []

/-- `indexs[&next_nid]`: hash-map lookup of a node's position in the
topological order.  The Rust indexing panics when the key is absent;
that branch is modelled by the junk value `0` (shown unreachable for
traversal-produced orders, which contain every producer they
reference). -/
def indexsGet (ord : List Nat) (n : Nat) : Nat :=
  (((indexsList ord).find? (fun p => p.1 == n)).map Prod.snd).getD 0

/-- `cg_node_names`: the generated identifier `_{i}_{label}` for each
position `i` of the topological order. -/
def cgNodeNames (g : MyGraph) (ord : List Nat) : List String :=
  ord.enum.map (fun p => "_" ++ toString p.1 ++ "_" ++ (g.nodes p.2).label)

/-- The junk `InputSocketType` modelling the panic of the Rust indexing
`input_sockets[j]` when `j` is out of bounds (unreachable for graphs
whose nodes were built by `build_node` from the registry). -/
def junkSocket : InputSocketType := ⟨"", .Scalar, .error ""⟩

/-- The argument text `code_gen` produces for one input socket
(position `j`, slot id `inputId`): a `{producer}_o{k}` reference when
connected, otherwise the stored literal rendered per `MyValueType`, or
the builtin default-resolution string verbatim. -/
def inputArgText (g : MyGraph) (ord : List Nat) (names : List String)
    (sockets : List InputSocketType) (j : Nat) (inputId : Nat) : String :=
  match g.connection inputId with
  | some otherOutputId =>
    let nextNid := g.outputNode otherOutputId
    let outputIndex := scanOutputIndex (g.nodes nextNid).outputs otherOutputId
    let index := indexsGet ord nextNid
    (names.getD index "") ++ "_o" ++ toString outputIndex
  | none =>
    match (sockets.getD j junkSocket).default with
    | .ok _ => renderValue (g.inputValue inputId)
    | .error defStr => defStr

/-- The `for (j, input_id)` loop of `code_gen` building `params`,
threading the `is_first` flag (a `", "` separator precedes every
argument but the first). -/
def paramsFold (g : MyGraph) (ord : List Nat) (names : List String)
    (sockets : List InputSocketType) (inputIds : List Nat) : String × Bool :=
  inputIds.enum.foldl
    (fun acc p =>
      ((if acc.2 then acc.1 else acc.1 ++ ", ") ++
        inputArgText g ord names sockets p.1 p.2, false))
    ("", true)

/-- The ad hoc fixed trailing arguments of `code_gen`: `NormalDirection`
appends `vso.nrm` and `UV0` appends `vso.uv` (with no separator and
without touching `is_first`). -/
def adHocParams (t : MyNodeType) (params : String) : String :=
  if t = .NormalDirection then params ++ "vso.nrm"
  else if t = .UV0 then params ++ "vso.uv"
  else params

/-- The `for k in 1..output_sockets.len()` loop of `code_gen`: for each
additional output socket, append `{cgName}_o{k}` (separated as an
argument) to `params` and emit the declaration
`{type} {cgName}_o{k};\n` before the call line.  Returns the emitted
declaration text, the final `params`, and the final `is_first` flag;
`k` is the socket position, the list argument the sockets from
position `k` on. -/
def outParamsAux (cgName : String) :
    Nat → List OutputSocketType → String → Bool → String × String × Bool
  | _, [], params, isFirst => ("", params, isFirst)
  | k, o :: rest, params, isFirst =>
    let params2 :=
      (if isFirst then params else params ++ ", ") ++
        cgName ++ "_o" ++ toString k
    let decl := typeStr o.ty ++ " " ++ cgName ++ "_o" ++ toString k ++ ";\n"
    let r := outParamsAux cgName (k + 1) rest params2 false
    (decl ++ r.1, r.2.1, r.2.2)

/-- The junk `NodeTypeInfo` modelling the panic of the Rust indexing
`node_type_infos[&my_node_type]` when the kind is absent from the
registry (unreachable: the registry is total, see the C7 theorem). -/
def junkInfo : NodeTypeInfo := ⟨"", [], [], []⟩

/-- Hash-map lookup `node_type_infos[&my_node_type]`, modelled over the
association list of registry entries. -/
def getInfo (infos : List (MyNodeType × NodeTypeInfo)) (t : MyNodeType) :
    NodeTypeInfo :=
  ((infos.find? (fun p => p.1 == t)).map Prod.snd).getD junkInfo

/-- The body of `code_gen`'s main loop for one node of the topological
order (position `i`, node id `nid`): build the argument list, then
either emit the extra out-parameter declarations followed by the
`{type} {name}_o0 = {label}({params});` call (plus the final `return
float4(...)` conversion when `i` is the last position), or, for a node
with zero output sockets, the terminal `return {label}({params});`
statement. -/
def genNodeCode (g : MyGraph) (infos : List (MyNodeType × NodeTypeInfo))
    (ord : List Nat) (names : List String) (i : Nat) (nid : Nat) : String :=
  let label := (g.nodes nid).label
  let cgName := names.getD i ""
  let t := (g.nodes nid).template
  let info := getInfo infos t
  let pf := paramsFold g ord names info.input_sockets (g.inputIds nid)
  let params1 := adHocParams t pf.1
  let outs := info.output_sockets
  if outs.length > 0 then
    let r := outParamsAux cgName 1 (outs.drop 1) params1 pf.2
    let outputType := (outs.getD 0 ⟨"", .Scalar⟩).ty
    let mainCmd :=
      typeStr outputType ++ " " ++ cgName ++ "_o0 = " ++ label ++ "(" ++
        r.2.1 ++ ");"
    r.1 ++ mainCmd ++ "\n" ++
      (if i = ord.length - 1 then
        match outputType with
        | .Scalar =>
          "return float4(" ++ cgName ++ "_o0, " ++ cgName ++ "_o0, " ++
            cgName ++ "_o0, 1.0);\n"
        | .Vec3 => "return float4(" ++ cgName ++ "_o0, 1.0);\n"
      else "")
  else
    "return " ++ label ++ "(" ++ params1 ++ ");" ++ "\n"

/-- The text `code_gen` builds from an already-computed topological
order: the concatenation of each node's generated code in order. -/
def genFromOrder (g : MyGraph) (infos : List (MyNodeType × NodeTypeInfo))
    (ord : List Nat) : String :=
  String.join (ord.enum.map (fun p => genNodeCode g infos ord (cgNodeNames g ord) p.1 p.2))

/-- `code_gen` from app.rs: run the postorder traversal from the active
node, then emit code for each node of the order.  `none` models the
traversal's unbounded recursion on cyclic graphs (fuel exhaustion). -/
def code_gen (g : MyGraph) (fuel : Nat) (nid : Nat)
    (infos : List (MyNodeType × NodeTypeInfo)) : Option String :=
  (postorder_traversal g fuel nid []).map (genFromOrder g infos)

/-- The socket type registry of app.rs (`MyGraphState::default`'s
`node_type_infos` hash map), as the association list of its
`HashMap::from` literal. -/
def myNodeTypeInfos : List (MyNodeType × NodeTypeInfo) :=
  [
   (.MakeScalar,
    { label := "MakeScalar",
      categories := ["Scalar"],
      input_sockets := [
        ⟨"value", .Scalar, .ok MyValueType.default_scalar⟩
      ],
      output_sockets := [⟨"out", .Scalar⟩] }),
   (.AddScalar,
    { label := "AddScalar",
      categories := ["Scalar"],
      input_sockets := [
        ⟨"v1", .Scalar, .ok MyValueType.default_scalar⟩,
        ⟨"v2", .Scalar, .ok MyValueType.default_scalar⟩
      ],
      output_sockets := [⟨"out", .Scalar⟩] }),
   (.SubtractScalar,
    { label := "SubtractScalar",
      categories := ["Scalar"],
      input_sockets := [
        ⟨"v1", .Scalar, .ok (MyValueType.Scalar ⟨"1"⟩)⟩,
        ⟨"v2", .Scalar, .ok MyValueType.default_scalar⟩
      ],
      output_sockets := [⟨"out", .Scalar⟩] }),
   (.MakeVector,
    { label := "MakeVector",
      categories := ["VectorOperations"],
      input_sockets := [
        ⟨"x", .Scalar, .ok MyValueType.default_scalar⟩,
        ⟨"y", .Scalar, .ok MyValueType.default_scalar⟩,
        ⟨"z", .Scalar, .ok MyValueType.default_scalar⟩
      ],
      output_sockets := [⟨"out", .Vec3⟩] }),
   (.AddVector,
    { label := "AddVector",
      categories := ["VectorOperations"],
      input_sockets := [
        ⟨"v1", .Vec3, .ok MyValueType.default_vector⟩,
        ⟨"v2", .Vec3, .ok MyValueType.default_vector⟩
      ],
      output_sockets := [⟨"out", .Vec3⟩] }),
   (.SubtractVector,
    { label := "SubtractVector",
      categories := ["VectorOperations"],
      input_sockets := [
        ⟨"v1", .Vec3, .ok (MyValueType.Vec3 (⟨"1"⟩, ⟨"1"⟩, ⟨"1"⟩))⟩,
        ⟨"v2", .Vec3, .ok MyValueType.default_vector⟩
      ],
      output_sockets := [⟨"out", .Vec3⟩] }),
   (.VectorTimesScalar,
    { label := "VectorTimesScalar",
      categories := ["VectorOperations"],
      input_sockets := [
        ⟨"vector", .Vec3, .ok MyValueType.default_vector⟩,
        ⟨"scalar", .Scalar, .ok MyValueType.default_scalar⟩
      ],
      output_sockets := [⟨"out", .Vec3⟩] }),
   (.NormalDirection,
    { label := "NormalDirection",
      categories := ["GeometryData"],
      input_sockets := [],
      output_sockets := [⟨"out", .Vec3⟩] }),
   (.UV0,
    { label := "UV0",
      categories := ["GeometryData"],
      input_sockets := [],
      output_sockets := [⟨"out", .Vec3⟩] }),
   (.MainTexure2D,
    { label := "MainTexure2D",
      categories := ["Main"],
      input_sockets := [
        ⟨"uv", .Vec3, .error "vso.uv"⟩
      ],
      output_sockets := [⟨"out", .Vec3⟩, ⟨"alpha", .Scalar⟩] }),
   (.MatCapTexure2D,
    { label := "MatCapTexure2D",
      categories := ["Main"],
      input_sockets := [
        ⟨"uv", .Vec3, .ok MyValueType.default_vector⟩
      ],
      output_sockets := [⟨"out", .Vec3⟩, ⟨"alpha", .Scalar⟩] }),
   (.ToonTexure2D,
    { label := "ToonTexure2D",
      categories := ["Main"],
      input_sockets := [
        ⟨"uv", .Vec3, .ok MyValueType.default_vector⟩
      ],
      output_sockets := [⟨"out", .Vec3⟩, ⟨"alpha", .Scalar⟩] }),
   (.LightDirection,
    { label := "LightDirection",
      categories := ["Lighting"],
      input_sockets := [],
      output_sockets := [⟨"out", .Vec3⟩] }),
   (.DotProduct,
    { label := "DotProduct",
      categories := ["VectorOperations"],
      input_sockets := [
        ⟨"v1", .Vec3, .ok MyValueType.default_vector⟩,
        ⟨"v2", .Vec3, .ok MyValueType.default_vector⟩
      ],
      output_sockets := [⟨"out", .Scalar⟩] }),
   (.Main,
    { label := "Main",
      categories := ["Main"],
      input_sockets := [
        ⟨"color", .Vec3, .ok MyValueType.default_vector⟩,
        ⟨"alpha", .Scalar, .ok (MyValueType.Scalar ⟨"1"⟩)⟩
      ],
      output_sockets := [] }),
   (.FloatToVector3,
    { label := "FloatToVector3",
      categories := ["VectorOperations"],
      input_sockets := [
        ⟨"value", .Scalar, .ok (MyValueType.Scalar ⟨"0"⟩)⟩
      ],
      output_sockets := [⟨"out", .Vec3⟩] }),
   (.Clamp01Scalar,
    { label := "Clamp01Scalar",
      categories := ["Arithmetic"],
      input_sockets := [
        ⟨"value", .Scalar, .ok MyValueType.default_scalar⟩
      ],
      output_sockets := [⟨"out", .Scalar⟩] }),
   (.Clamp01Vector,
    { label := "Clamp01Vector",
      categories := ["Arithmetic"],
      input_sockets := [
        ⟨"value", .Vec3, .ok MyValueType.default_vector⟩
      ],
      output_sockets := [⟨"out", .Vec3⟩] }),
   (.FMAScalar,
    { label := "FMAScalar",
      categories := ["Arithmetic"],
      input_sockets := [
        ⟨"a", .Scalar, .ok MyValueType.default_scalar⟩,
        ⟨"b", .Scalar, .ok (MyValueType.Scalar ⟨"0.5"⟩)⟩,
        ⟨"c", .Scalar, .ok (MyValueType.Scalar ⟨"0.5"⟩)⟩
      ],
      output_sockets := [⟨"out", .Scalar⟩] }),
   (.FMAVector,
    { label := "FMAVector",
      categories := ["Arithmetic"],
      input_sockets := [
        ⟨"a", .Vec3, .ok MyValueType.default_vector⟩,
        ⟨"b", .Vec3, .ok (MyValueType.Vec3 (⟨"0.5"⟩, ⟨"0.5"⟩, ⟨"0.5"⟩))⟩,
        ⟨"c", .Vec3, .ok (MyValueType.Vec3 (⟨"0.5"⟩, ⟨"0.5"⟩, ⟨"0.5"⟩))⟩
      ],
      output_sockets := [⟨"out", .Vec3⟩] })
  ]

/-! ### The extended registry of types.rs
types.rs re-declares the data model with an extended node-kind
enumeration and a process-wide `NODE_TYPE_INFOS` registry; its value
type wraps the stored floats in `Option`. -/

/-- `MyDataType` from types.rs. -/
inductive TypesRs.MyDataType where
  | Scalar
  | Vec3
deriving DecidableEq, Repr

/-- `MyValueType` from types.rs (`Option`-wrapped floats). -/
inductive TypesRs.MyValueType where
  | Vec3 (value : Option (F32 × F32 × F32))
  | Scalar (value : Option F32)
deriving DecidableEq, Repr

/-- `MyValueType::scalar` from types.rs. -/
def TypesRs.MyValueType.scalar (v : F32) : TypesRs.MyValueType :=
  .Scalar (some v)

/-- `MyValueType::vector` from types.rs. -/
def TypesRs.MyValueType.vector (x y z : F32) : TypesRs.MyValueType :=
  .Vec3 (some (x, y, z))

/-- `MyValueType::default_scalar()` from types.rs. -/
def TypesRs.MyValueType.default_scalar : TypesRs.MyValueType :=
  .Scalar (some ⟨"0"⟩)

/-- `MyValueType::default_vector()` from types.rs. -/
def TypesRs.MyValueType.default_vector : TypesRs.MyValueType :=
  .Vec3 (some (⟨"0"⟩, ⟨"0"⟩, ⟨"0"⟩))

/-- `InputSocketType` from types.rs. -/
structure TypesRs.InputSocketType where
  name : String
  ty : TypesRs.MyDataType
  default : Except String TypesRs.MyValueType
deriving DecidableEq

/-- `OutputSocketType` from types.rs. -/
structure TypesRs.OutputSocketType where
  name : String
  ty : TypesRs.MyDataType
deriving DecidableEq

/-- `NodeTypeInfo` from types.rs. -/
structure TypesRs.NodeTypeInfo where
  label : String
  categories : List String
  input_sockets : List TypesRs.InputSocketType
  output_sockets : List TypesRs.OutputSocketType
deriving DecidableEq

/-- `MyNodeType` from types.rs: the extended node-kind enumeration. -/
inductive TypesRs.MyNodeType where
  | MakeScalar
  | Add
  | Sub
  | MakeVector
  | Add3
  | Sub3
  | VectorTimesScalar
  | NrmWS
  | NrmVS
  | FaceNrmWS
  | LightDirWS
  | DotProduct
  | Main
  | FloatToVector3
  | Saturate
  | Saturate3
  | FMA
  | FMA3
  | Pow
  | Pow3
  | Sqrt
  | UV0
  | MainTexure2D
  | MatCapTexure2D
  | ToonTexure2D
  | CustomTexture2D
  | Step
  | SmoothStep
  | ScreenPos
  | PosWS
  | CameraPos
  | Depth
  | Fresnel
  | ViewDirWS
  | Max
  | Min
  | Mul
  | Mul3
  | Div
  | Sin
  | Cos
  | Lerp
  | Lerp3
  | Normalize
  | MatAlpha
  | Reflect
  | HalfDirection
  | ComponentMask
  | VSPosWS
  | VSUV0
  | VSNrmWS
  | TimeSync
  | TimeFree
  | Route
  | Route3
  | RgbToHsv
  | HsvToRgb
  | AdjustHsv
deriving DecidableEq, Repr

/-- `NODE_TYPE_INFOS` from types.rs: the static registry, as the
association list of its `HashMap::from` literal. -/
def TypesRs.NODE_TYPE_INFOS : List (TypesRs.MyNodeType × TypesRs.NodeTypeInfo) :=
  [
   (.TimeSync,
    { label := "TimeSync",
      categories := ["Scalar"],
      input_sockets := [],
      output_sockets := [⟨"out", .Scalar⟩] }),
   (.TimeFree,
    { label := "TimeFree",
      categories := ["Scalar"],
      input_sockets := [],
      output_sockets := [⟨"out", .Scalar⟩] }),
   (.MakeScalar,
    { label := "MakeScalar",
      categories := ["Scalar"],
      input_sockets := [
        ⟨"value", .Scalar, .ok TypesRs.MyValueType.default_scalar⟩
      ],
      output_sockets := [⟨"out", .Scalar⟩] }),
   (.Add,
    { label := "Add",
      categories := ["Scalar"],
      input_sockets := [
        ⟨"v1", .Scalar, .ok TypesRs.MyValueType.default_scalar⟩,
        ⟨"v2", .Scalar, .ok TypesRs.MyValueType.default_scalar⟩
      ],
      output_sockets := [⟨"out", .Scalar⟩] }),
   (.Pow,
    { label := "Pow",
      categories := ["Scalar"],
      input_sockets := [
        ⟨"x", .Scalar, .ok TypesRs.MyValueType.default_scalar⟩,
        ⟨"y", .Scalar, .ok (TypesRs.MyValueType.scalar ⟨"1"⟩)⟩
      ],
      output_sockets := [⟨"out", .Scalar⟩] }),
   (.Pow3,
    { label := "Pow3",
      categories := ["Scalar"],
      input_sockets := [
        ⟨"x", .Vec3, .ok TypesRs.MyValueType.default_vector⟩,
        ⟨"y", .Scalar, .ok (TypesRs.MyValueType.scalar ⟨"1"⟩)⟩
      ],
      output_sockets := [⟨"out", .Vec3⟩] }),
   (.Sqrt,
    { label := "Sqrt",
      categories := ["Scalar"],
      input_sockets := [
        ⟨"x", .Scalar, .ok TypesRs.MyValueType.default_scalar⟩
      ],
      output_sockets := [⟨"out", .Scalar⟩] }),
   (.Sub,
    { label := "Sub",
      categories := ["Scalar"],
      input_sockets := [
        ⟨"v1", .Scalar, .ok (TypesRs.MyValueType.scalar ⟨"1"⟩)⟩,
        ⟨"v2", .Scalar, .ok TypesRs.MyValueType.default_scalar⟩
      ],
      output_sockets := [⟨"out", .Scalar⟩] }),
   (.MakeVector,
    { label := "MakeVector",
      categories := ["VectorOperations"],
      input_sockets := [
        ⟨"x", .Scalar, .ok TypesRs.MyValueType.default_scalar⟩,
        ⟨"y", .Scalar, .ok TypesRs.MyValueType.default_scalar⟩,
        ⟨"z", .Scalar, .ok TypesRs.MyValueType.default_scalar⟩
      ],
      output_sockets := [⟨"out", .Vec3⟩] }),
   (.Add3,
    { label := "Add3",
      categories := ["VectorOperations"],
      input_sockets := [
        ⟨"v1", .Vec3, .ok TypesRs.MyValueType.default_vector⟩,
        ⟨"v2", .Vec3, .ok TypesRs.MyValueType.default_vector⟩
      ],
      output_sockets := [⟨"out", .Vec3⟩] }),
   (.Sub3,
    { label := "Sub3",
      categories := ["VectorOperations"],
      input_sockets := [
        ⟨"v1", .Vec3, .ok (TypesRs.MyValueType.vector ⟨"1"⟩ ⟨"1"⟩ ⟨"1"⟩)⟩,
        ⟨"v2", .Vec3, .ok TypesRs.MyValueType.default_vector⟩
      ],
      output_sockets := [⟨"out", .Vec3⟩] }),
   (.VectorTimesScalar,
    { label := "VectorTimesScalar",
      categories := ["VectorOperations"],
      input_sockets := [
        ⟨"vector", .Vec3, .ok TypesRs.MyValueType.default_vector⟩,
        ⟨"scalar", .Scalar, .ok TypesRs.MyValueType.default_scalar⟩
      ],
      output_sockets := [⟨"out", .Vec3⟩] }),
   (.NrmWS,
    { label := "NrmWS",
      categories := ["GeometryData"],
      input_sockets := [],
      output_sockets := [⟨"out", .Vec3⟩] }),
   (.NrmVS,
    { label := "NrmVS",
      categories := ["GeometryData"],
      input_sockets := [],
      output_sockets := [⟨"out", .Vec3⟩] }),
   (.FaceNrmWS,
    { label := "FaceNrmWS",
      categories := ["GeometryData"],
      input_sockets := [],
      output_sockets := [⟨"out", .Vec3⟩] }),
   (.UV0,
    { label := "UV0",
      categories := ["GeometryData"],
      input_sockets := [],
      output_sockets := [⟨"out", .Vec3⟩] }),
   (.MainTexure2D,
    { label := "MainTexure2D",
      categories := ["Main"],
      input_sockets := [
        ⟨"uv", .Vec3, .error "vso.uv"⟩
      ],
      output_sockets := [⟨"out", .Vec3⟩, ⟨"alpha", .Scalar⟩] }),
   (.MatCapTexure2D,
    { label := "MatCapTexure2D",
      categories := ["Main"],
      input_sockets := [
        ⟨"uv", .Vec3, .ok TypesRs.MyValueType.default_vector⟩
      ],
      output_sockets := [⟨"out", .Vec3⟩, ⟨"alpha", .Scalar⟩] }),
   (.ToonTexure2D,
    { label := "ToonTexure2D",
      categories := ["Main"],
      input_sockets := [
        ⟨"uv", .Vec3, .ok TypesRs.MyValueType.default_vector⟩
      ],
      output_sockets := [⟨"out", .Vec3⟩, ⟨"alpha", .Scalar⟩] }),
   (.CustomTexture2D,
    { label := "CustomTexture2D",
      categories := ["Main"],
      input_sockets := [
        ⟨"uv", .Vec3, .error "vso.uv"⟩
      ],
      output_sockets := [⟨"out", .Vec3⟩, ⟨"r", .Scalar⟩, ⟨"g", .Scalar⟩, ⟨"b", .Scalar⟩, ⟨"alpha", .Scalar⟩] }),
   (.RgbToHsv,
    { label := "RgbToHsv",
      categories := ["Utility"],
      input_sockets := [
        ⟨"rgb", .Vec3, .ok TypesRs.MyValueType.default_vector⟩
      ],
      output_sockets := [⟨"out", .Vec3⟩, ⟨"h", .Scalar⟩, ⟨"s", .Scalar⟩, ⟨"v", .Scalar⟩] }),
   (.HsvToRgb,
    { label := "HsvToRgb",
      categories := ["Utility"],
      input_sockets := [
        ⟨"h", .Scalar, .ok TypesRs.MyValueType.default_scalar⟩,
        ⟨"s", .Scalar, .ok TypesRs.MyValueType.default_scalar⟩,
        ⟨"v", .Scalar, .ok TypesRs.MyValueType.default_scalar⟩
      ],
      output_sockets := [⟨"out", .Vec3⟩] }),
   (.AdjustHsv,
    { label := "AdjustHsv",
      categories := ["Utility"],
      input_sockets := [
        ⟨"rgb", .Vec3, .ok TypesRs.MyValueType.default_vector⟩,
        ⟨"h", .Scalar, .ok TypesRs.MyValueType.default_scalar⟩,
        ⟨"s", .Scalar, .ok (TypesRs.MyValueType.scalar ⟨"1"⟩)⟩,
        ⟨"v", .Scalar, .ok (TypesRs.MyValueType.scalar ⟨"1"⟩)⟩
      ],
      output_sockets := [⟨"out", .Vec3⟩] }),
   (.LightDirWS,
    { label := "LightDirWS",
      categories := ["Lighting"],
      input_sockets := [],
      output_sockets := [⟨"out", .Vec3⟩] }),
   (.DotProduct,
    { label := "DotProduct",
      categories := ["VectorOperations"],
      input_sockets := [
        ⟨"v1", .Vec3, .ok TypesRs.MyValueType.default_vector⟩,
        ⟨"v2", .Vec3, .ok TypesRs.MyValueType.default_vector⟩
      ],
      output_sockets := [⟨"out", .Scalar⟩] }),
   (.Main,
    { label := "Main",
      categories := ["Main"],
      input_sockets := [
        ⟨"color", .Vec3, .ok TypesRs.MyValueType.default_vector⟩,
        ⟨"alpha", .Scalar, .error "MatAlpha()"⟩,
        ⟨"posWS", .Vec3, .error "pos.xyz"⟩,
        ⟨"nrmWS", .Vec3, .error "normal"⟩
      ],
      output_sockets := [] }),
   (.FloatToVector3,
    { label := "FloatToVector3",
      categories := ["VectorOperations"],
      input_sockets := [
        ⟨"value", .Scalar, .ok TypesRs.MyValueType.default_scalar⟩
      ],
      output_sockets := [⟨"out", .Vec3⟩] }),
   (.Saturate,
    { label := "Saturate",
      categories := ["Arithmetic"],
      input_sockets := [
        ⟨"value", .Scalar, .ok TypesRs.MyValueType.default_scalar⟩
      ],
      output_sockets := [⟨"out", .Scalar⟩] }),
   (.Saturate3,
    { label := "Saturate3",
      categories := ["Arithmetic"],
      input_sockets := [
        ⟨"value", .Vec3, .ok TypesRs.MyValueType.default_vector⟩
      ],
      output_sockets := [⟨"out", .Vec3⟩] }),
   (.FMA,
    { label := "FMA",
      categories := ["Arithmetic"],
      input_sockets := [
        ⟨"a", .Scalar, .ok TypesRs.MyValueType.default_scalar⟩,
        ⟨"b", .Scalar, .ok (TypesRs.MyValueType.scalar ⟨"0.5"⟩)⟩,
        ⟨"c", .Scalar, .ok (TypesRs.MyValueType.scalar ⟨"0.5"⟩)⟩
      ],
      output_sockets := [⟨"out", .Scalar⟩] }),
   (.FMA3,
    { label := "FMA3",
      categories := ["Arithmetic"],
      input_sockets := [
        ⟨"a", .Vec3, .ok TypesRs.MyValueType.default_vector⟩,
        ⟨"b", .Vec3, .ok (TypesRs.MyValueType.vector ⟨"0.5"⟩ ⟨"0.5"⟩ ⟨"0.5"⟩)⟩,
        ⟨"c", .Vec3, .ok (TypesRs.MyValueType.vector ⟨"0.5"⟩ ⟨"0.5"⟩ ⟨"0.5"⟩)⟩
      ],
      output_sockets := [⟨"out", .Vec3⟩] }),
   (.Step,
    { label := "Step",
      categories := ["Arithmetic"],
      input_sockets := [
        ⟨"edge", .Scalar, .ok TypesRs.MyValueType.default_scalar⟩,
        ⟨"x", .Scalar, .ok TypesRs.MyValueType.default_scalar⟩
      ],
      output_sockets := [⟨"out", .Scalar⟩] }),
   (.SmoothStep,
    { label := "SmoothStep",
      categories := ["Arithmetic"],
      input_sockets := [
        ⟨"min", .Scalar, .ok TypesRs.MyValueType.default_scalar⟩,
        ⟨"max", .Scalar, .ok (TypesRs.MyValueType.scalar ⟨"1"⟩)⟩,
        ⟨"x", .Scalar, .ok TypesRs.MyValueType.default_scalar⟩
      ],
      output_sockets := [⟨"out", .Scalar⟩] }),
   (.Lerp,
    { label := "Lerp",
      categories := ["Arithmetic"],
      input_sockets := [
        ⟨"a", .Scalar, .ok TypesRs.MyValueType.default_scalar⟩,
        ⟨"b", .Scalar, .ok (TypesRs.MyValueType.scalar ⟨"1"⟩)⟩,
        ⟨"t", .Scalar, .ok TypesRs.MyValueType.default_scalar⟩
      ],
      output_sockets := [⟨"out", .Scalar⟩] }),
   (.Lerp3,
    { label := "Lerp3",
      categories := ["Arithmetic"],
      input_sockets := [
        ⟨"a", .Vec3, .ok TypesRs.MyValueType.default_vector⟩,
        ⟨"b", .Vec3, .ok (TypesRs.MyValueType.vector ⟨"1"⟩ ⟨"1"⟩ ⟨"1"⟩)⟩,
        ⟨"t", .Scalar, .ok TypesRs.MyValueType.default_scalar⟩
      ],
      output_sockets := [⟨"out", .Vec3⟩] }),
   (.ScreenPos,
    { label := "ScreenPos",
      categories := ["Arithmetic"],
      input_sockets := [],
      output_sockets := [⟨"out", .Vec3⟩] }),
   (.PosWS,
    { label := "PosWS",
      categories := ["Arithmetic"],
      input_sockets := [],
      output_sockets := [⟨"out", .Vec3⟩] }),
   (.CameraPos,
    { label := "CameraPos",
      categories := ["Arithmetic"],
      input_sockets := [],
      output_sockets := [⟨"out", .Vec3⟩] }),
   (.Depth,
    { label := "Depth",
      categories := ["Arithmetic"],
      input_sockets := [],
      output_sockets := [⟨"out", .Scalar⟩] }),
   (.MatAlpha,
    { label := "MatAlpha",
      categories := ["Arithmetic"],
      input_sockets := [],
      output_sockets := [⟨"out", .Scalar⟩] }),
   (.Normalize,
    { label := "Normalize",
      categories := ["Arithmetic"],
      input_sockets := [
        ⟨"nrm", .Vec3, .ok TypesRs.MyValueType.default_vector⟩
      ],
      output_sockets := [⟨"out", .Vec3⟩] }),
   (.Fresnel,
    { label := "Fresnel",
      categories := ["Arithmetic"],
      input_sockets := [
        ⟨"exp", .Scalar, .ok (TypesRs.MyValueType.scalar ⟨"1"⟩)⟩
      ],
      output_sockets := [⟨"out", .Scalar⟩] }),
   (.Max,
    { label := "Max",
      categories := ["Arithmetic"],
      input_sockets := [
        ⟨"a", .Scalar, .ok TypesRs.MyValueType.default_scalar⟩,
        ⟨"b", .Scalar, .ok TypesRs.MyValueType.default_scalar⟩
      ],
      output_sockets := [⟨"out", .Scalar⟩] }),
   (.Min,
    { label := "Min",
      categories := ["Arithmetic"],
      input_sockets := [
        ⟨"a", .Scalar, .ok TypesRs.MyValueType.default_scalar⟩,
        ⟨"b", .Scalar, .ok (TypesRs.MyValueType.scalar ⟨"1"⟩)⟩
      ],
      output_sockets := [⟨"out", .Scalar⟩] }),
   (.Mul,
    { label := "Mul",
      categories := ["Arithmetic"],
      input_sockets := [
        ⟨"a", .Scalar, .ok TypesRs.MyValueType.default_scalar⟩,
        ⟨"b", .Scalar, .ok (TypesRs.MyValueType.scalar ⟨"1"⟩)⟩
      ],
      output_sockets := [⟨"out", .Scalar⟩] }),
   (.Mul3,
    { label := "Mul3",
      categories := ["Arithmetic"],
      input_sockets := [
        ⟨"a", .Vec3, .ok TypesRs.MyValueType.default_vector⟩,
        ⟨"b", .Vec3, .ok (TypesRs.MyValueType.vector ⟨"1"⟩ ⟨"1"⟩ ⟨"1"⟩)⟩
      ],
      output_sockets := [⟨"out", .Vec3⟩] }),
   (.Div,
    { label := "Div",
      categories := ["Arithmetic"],
      input_sockets := [
        ⟨"a", .Scalar, .ok (TypesRs.MyValueType.scalar ⟨"1"⟩)⟩,
        ⟨"b", .Scalar, .ok TypesRs.MyValueType.default_scalar⟩
      ],
      output_sockets := [⟨"out", .Scalar⟩] }),
   (.Sin,
    { label := "Sin",
      categories := ["Arithmetic"],
      input_sockets := [
        ⟨"v", .Scalar, .ok TypesRs.MyValueType.default_scalar⟩
      ],
      output_sockets := [⟨"out", .Scalar⟩] }),
   (.Cos,
    { label := "Cos",
      categories := ["Arithmetic"],
      input_sockets := [
        ⟨"v", .Scalar, .ok TypesRs.MyValueType.default_scalar⟩
      ],
      output_sockets := [⟨"out", .Scalar⟩] }),
   (.Reflect,
    { label := "Reflect",
      categories := ["Arithmetic"],
      input_sockets := [
        ⟨"I", .Vec3, .ok TypesRs.MyValueType.default_vector⟩,
        ⟨"N", .Vec3, .ok TypesRs.MyValueType.default_vector⟩
      ],
      output_sockets := [⟨"out", .Vec3⟩] }),
   (.ComponentMask,
    { label := "ComponentMask",
      categories := ["Arithmetic"],
      input_sockets := [
        ⟨"vec", .Vec3, .ok TypesRs.MyValueType.default_vector⟩
      ],
      output_sockets := [⟨"x", .Scalar⟩, ⟨"y", .Scalar⟩, ⟨"z", .Scalar⟩] }),
   (.HalfDirection,
    { label := "HalfDirection",
      categories := ["Arithmetic"],
      input_sockets := [],
      output_sockets := [⟨"out", .Vec3⟩] }),
   (.ViewDirWS,
    { label := "ViewDirWS",
      categories := ["Arithmetic"],
      input_sockets := [],
      output_sockets := [⟨"out", .Vec3⟩] }),
   (.VSPosWS,
    { label := "VSPosWS",
      categories := ["VertexShader"],
      input_sockets := [],
      output_sockets := [⟨"out", .Vec3⟩] }),
   (.VSUV0,
    { label := "VSUV0",
      categories := ["VertexShader"],
      input_sockets := [],
      output_sockets := [⟨"out", .Vec3⟩] }),
   (.VSNrmWS,
    { label := "VSNrmWS",
      categories := ["VertexShader"],
      input_sockets := [],
      output_sockets := [⟨"out", .Vec3⟩] }),
   (.Route,
    { label := "Route",
      categories := ["Utility"],
      input_sockets := [
        ⟨"v", .Scalar, .ok TypesRs.MyValueType.default_scalar⟩
      ],
      output_sockets := [⟨"out", .Scalar⟩] }),
   (.Route3,
    { label := "Route3",
      categories := ["Utility"],
      input_sockets := [
        ⟨"v", .Vec3, .ok TypesRs.MyValueType.default_vector⟩
      ],
      output_sockets := [⟨"out", .Vec3⟩] })
  ]

/-- Hash-map lookup in the types.rs registry. -/
def TypesRs.findInfo (t : TypesRs.MyNodeType) : Option TypesRs.NodeTypeInfo :=
  (TypesRs.NODE_TYPE_INFOS.find? (fun p => p.1 == t)).map Prod.snd

/-- `HLSL_0` from hlsl.rs (verbatim). -/
def HLSL_0 : String :=
  "\nfloat4x4 worldMatrix : WORLD ;\nfloat4x4 viewMatrix : VIEW ;\nfloat4x4 viewProjMatrix : VIEWPROJECTION ;\nfloat4x4 worldViewMatrix : WORLDVIEW ;\nfloat4x4 worldViewProjMatrix : WORLDVIEWPROJECTION ;\nfloat4x4 lightViewMatrix : VIEW < string Object = \"Light\"; > ;\nfloat4x4 worldInvMatrix : WORLDINVERSE ;\nfloat4x4 worldViewProjTransMatrix : WORLDVIEWPROJECTIONTRANSPOSE ;\nfloat4 materialDiffuse  : DIFFUSE  < string Object = \"Geometry\"; >;\nfloat3 materialAmbient  : AMBIENT  < string Object = \"Geometry\"; >;\nfloat3 materialEmmisive : EMISSIVE < string Object = \"Geometry\"; >;\nfloat3 materialSpecular : SPECULAR < string Object = \"Geometry\"; >;\nfloat  specularPower    : SPECULARPOWER < string Object = \"Geometry\"; >;\nfloat3 materialToon     : TOONCOLOR;\nfloat4 edgeColor        : EDGECOLOR;\nfloat3 lightDiffuse     : DIFFUSE   < string Object = \"Light\"; >;\nfloat3 lightAmbient     : AMBIENT   < string Object = \"Light\"; >;\nfloat3 lightSpecular    : SPECULAR  < string Object = \"Light\"; >;\nfloat4 groundShadowColor : GROUNDSHADOWCOLOR;\n\nstatic float3 cam_dir = mul(float3(0, 0, 1), transpose((float3x3)viewMatrix));\n\nfloat3 light_dir: DIRECTION<string Object = \"Light\";>;\nfloat3 cam_pos: POSITION<string Object = \"Camera\";>;\n\nfloat2 screenSize : VIEWPORTPIXELSIZE;\n\nfloat ftime_sync : TIME <bool SyncInEditMode=true;>;\nfloat ftime_free : TIME <bool SyncInEditMode=false;>;\nfloat elapsed_time : ELAPSEDTIME;\nstatic float fps = 1.0 / elapsed_time;\n\nconst float PI = 3.14159265359;\n\ntexture mat_tex: MATERIALTEXTURE;\nsampler mat_tex_sampler = sampler_state \x7b\n    texture=<mat_tex>;\n    MINFILTER = LINEAR;\n    MAGFILTER = LINEAR;\n\x7d;\n\ntexture ObjectTexture : MATERIALTEXTURE;\nsampler ObjTexSampler = sampler_state\n\x7b\n    texture = <ObjectTexture>;\n    MINFILTER = LINEAR;\n    MAGFILTER = LINEAR;\n    MIPFILTER = LINEAR;\n    ADDRESSU  = WRAP;\n    ADDRESSV  = WRAP;\n\x7d;\n\ntexture ObjectSphereMap : MATERIALSPHEREMAP;\nsampler ObjSphSampler = sampler_state\n\x7b\n    texture = <ObjectSphereMap>;\n    MINFILTER = LINEAR;\n    MAGFILTER = LINEAR;\n    MIPFILTER = LINEAR;\n    ADDRESSU  = WRAP;\n    ADDRESSV  = WRAP;\n\x7d;\n\ntexture ObjectToonTexture : MATERIALTOONTEXTURE;\nsampler ObjToonSampler = sampler_state\n\x7b\n    texture = <ObjectToonTexture>;\n    MINFILTER = LINEAR;\n    MAGFILTER = LINEAR;\n    MIPFILTER = NONE;\n    ADDRESSU  = CLAMP;\n    ADDRESSV  = CLAMP;\n\x7d;\n"

/-- `HLSL_1` from hlsl.rs (verbatim). -/
def HLSL_1 : String :=
  "\nstruct VS_OUTPUT \x7b\n    float4 pos: POSITION;\n    float3 uv: TEXCOORD1;\n    float3 nrm: TEXCOORD2;\n    float2 screenPos: TEXCOORD3;\n    float4 uv1: TEXCOORD4;\n    float3 posWS: TEXCOORD5;\n\x7d;\n\nfloat3 MakeVector(float x, float y, float z) \x7b\n    return float3(x, y, z);\n\x7d\n\nfloat TimeSync() \x7b\n    return ftime_sync;\n\x7d\n\nfloat TimeFree() \x7b\n    return ftime_free;\n\x7d\n\nfloat3 NrmWS(float3 v) \x7b\n    return normalize(v);\n\x7d\n\nfloat3 NrmVS(float3 v) \x7b\n    return mul(v, (float3x3)viewMatrix);\n\x7d\n\nfloat3 FaceNrmWS(float3 posWS) \x7b\n    return normalize(cross(ddx(posWS), ddy(posWS)));\n\x7d\n\nfloat3 UV0(float3 v) \x7b\n    return v;\n\x7d\n\nfloat3 UV1(float4 v, out float w) \x7b\n    w = v.w;\n    return v.xyz;\n\x7d\n\nfloat3 LightDirWS() \x7b\n    return -light_dir;\n\x7d\n\nfloat DotProduct(float3 a, float3 b) \x7b\n    return dot(a, b);\n\x7d\n\nfloat MakeScalar(float v) \x7b\n    return v;\n\x7d\n\nfloat Pow(float x, float y) \x7b\n    return pow(x, y);\n\x7d\n\nfloat3 Pow3(float3 x, float y) \x7b\n    return pow(x, y);\n\x7d\n\nfloat Sqrt(float x) \x7b\n    return sqrt(x);\n\x7d\n\nfloat Add(float a, float b) \x7b\n    return a + b;\n\x7d\n\nfloat Sub(float a, float b) \x7b\n    return a - b;\n\x7d\n\nfloat3 Add3(float3 a, float3 b) \x7b\n    return a + b;\n\x7d\n\nfloat3 Sub3(float3 a, float3 b) \x7b\n    return a - b;\n\x7d\n\nfloat3 VectorTimesScalar(float3 v, float s) \x7b\n    return v * s;\n\x7d\n\nfloat4 Main(float3 color, float alpha) \x7b\n    return float4(color, alpha);\n\x7d\n\nfloat3 FloatToVector3(float v) \x7b\n    return float3(v, v, v);\n\x7d\n\nfloat Saturate(float v) \x7b\n    return saturate(v);\n\x7d\n\nfloat3 Saturate3(float3 v) \x7b\n    return saturate(v);\n\x7d\n\nfloat FMA(float a, float b, float c) \x7b\n    return mad(a, b, c);\n\x7d\n\nfloat3 FMA3(float3 a, float3 b, float3 c) \x7b\n    return mad(a, b, c);\n\x7d\n\nfloat Step(float edge, float x) \x7b\n    return step(edge, x);\n\x7d\n\nfloat SmoothStep(float edge0, float edge1, float x) \x7b\n    return smoothstep(edge0, edge1, x);\n\x7d\n\nfloat3 ScreenPos(float2 screenPos) \x7b\n    return float3(screenPos, 0);\n\x7d\n\nfloat3 PosWS(float3 pos) \x7b\n    return pos;\n\x7d\n\nfloat3 ViewDirWS(float3 posWS) \x7b\n    return normalize(cam_pos - posWS);\n\x7d\n\nfloat3 Fresnel(float exp, float3 posWS, float3 nrmWS) \x7b\n    float base = 1 - saturate(dot(normalize(cam_pos - posWS), nrmWS));\n    return pow(base, exp);\n\x7d\n\nfloat3 CameraPos() \x7b\n    return cam_pos;\n\x7d\n\nfloat Depth(float3 posWS) \x7b\n    return dot((posWS - cam_pos), cam_dir);\n\x7d\n\nfloat3 Normalize(float3 nrm) \x7b\n    return normalize(nrm);\n\x7d\n\nfloat Min(float a, float b) \x7b\n    return min(a, b);\n\x7d\n\nfloat Max(float a, float b) \x7b\n    return max(a, b);\n\x7d\n\nfloat Mul(float a, float b) \x7b\n    return a * b;\n\x7d\n\nfloat3 Mul3(float3 a, float3 b) \x7b\n    return a * b;\n\x7d\n\nfloat Div(float a, float b) \x7b\n    return a / b;\n\x7d\n\nfloat Sin(float v) \x7b\n    return sin(v);\n\x7d\n\nfloat Cos(float v) \x7b\n    return cos(v);\n\x7d\n\nfloat Route(float v) \x7b\n    return v;\n\x7d\n\nfloat3 Route3(float3 v) \x7b\n    return v;\n\x7d\n\nfloat3 LinearToSrgb(float3 color) \x7b\n    return pow(color, 1.0/2.2);\n\x7d\n\nfloat3 SrgbToLinear(float3 color) \x7b\n    return pow(color, 2.2);\n\x7d\n\nfloat3 ToneMappingReinhard(float3 color) \x7b\n    return color / (color + 1);\n\x7d\n\nfloat ControlObject(float v) \x7b\n    return v;\n\x7d\n\nfloat3 ControlObject3(float3 v) \x7b\n    return v;\n\x7d\n\nfloat Lerp(float a, float b, float t) \x7b\n    return lerp(a, b, t);\n\x7d\n\nfloat3 Lerp3(float3 a, float3 b, float t) \x7b\n    return lerp(a, b, t);\n\x7d\n\nfloat3 MainTexure2D(float3 uv, out float alpha) \x7b\n    float4 texel = tex2D(ObjTexSampler, uv.xy);\n    alpha = texel.w;\n    return texel.xyz;\n\x7d\n\nfloat3 MatCapTexure2D(float3 uv, out float alpha) \x7b\n    float4 texel = tex2D(ObjSphSampler, uv.xy);\n    alpha = texel.w;\n    return texel.xyz;\n\x7d\n\nfloat3 ToonTexure2D(float3 uv, out float alpha) \x7b\n    float4 texel = tex2D(ObjToonSampler, uv.xy);\n    alpha = texel.w;\n    return texel.xyz;\n\x7d\n\nfloat3 CustomTexture2D(float3 uv, sampler s, out float r, out float g, out float b, out float alpha) \x7b\n    float4 texel = tex2D(s, uv.xy);\n    alpha = texel.w;\n    r = texel.x;\n    g = texel.y;\n    b = texel.z;\n    return texel.xyz;\n\x7d\n\nfloat3 Hue(float v) \x7b\n    return saturate(3.0*abs(1.0-2.0*frac(v+float3(0.0,-1.0/3.0,1.0/3.0)))-1);\n\x7d\n\nfloat3 HsvToRgb(float h, float s, float v) \x7b\n    return lerp(float3(1,1,1), Hue(h), s) * v;\n\x7d\n\nfloat3 RgbToHsv(float3 rgb, out float h, out float s, out float v) \x7b\n    float4 node_1363_k = float4(0.0, -1.0 / 3.0, 2.0 / 3.0, -1.0);\n    float4 node_1363_p = lerp(float4(float4(rgb,0.0).zy, node_1363_k.wz), float4(float4(rgb,0.0).yz, node_1363_k.xy), step(float4(rgb,0.0).z, float4(rgb,0.0).y));\n    float4 node_1363_q = lerp(float4(node_1363_p.xyw, float4(rgb,0.0).x), float4(float4(rgb,0.0).x, node_1363_p.yzx), step(node_1363_p.x, float4(rgb,0.0).x));\n    float node_1363_d = node_1363_q.x - min(node_1363_q.w, node_1363_q.y);\n    float node_1363_e = 1.0e-10;\n    float3 hsv = float3(abs(node_1363_q.z + (node_1363_q.w - node_1363_q.y) / (6.0 * node_1363_d + node_1363_e)), node_1363_d / (node_1363_q.x + node_1363_e), node_1363_q.x);\n    h = hsv.r;\n    s = hsv.g;\n    v = hsv.b;\n    return hsv;\n\x7d\n\nfloat3 AdjustHsv(float3 rgb, float h_, float s_, float v_) \x7b\n    float h, s, v;\n    RgbToHsv(rgb, h, s, v);\n    return HsvToRgb(h + h_, s * s_, v * v_);\n\x7d\n\nfloat MatAlpha() \x7b\n    return materialDiffuse.w;\n\x7d\n\nfloat3 Reflect(float3 I, float3 N) \x7b\n    return reflect(I, N);\n\x7d\n\nfloat3 HalfDirection(float3 v) \x7b\n    return normalize(v - light_dir);\n\x7d\n\nfloat3 VertexPosWS(float4 pos) \x7b\n    return pos.xyz;\n\x7d\n\nfloat3 VertexUV0(float2 uv) \x7b\n    return float3(uv, 0);\n\x7d\n\nfloat3 VertexUV1(float4 uv, out float w) \x7b\n    w = uv.w;\n    return uv.xyz;\n\x7d\n\nfloat3 VertexNrmWS(float3 normal) \x7b\n    return normal;\n\x7d\n\nvoid SetPosNrm(float3 pos, float3 nrm, out float3 vs_pos, out float3 vs_nrm) \x7b\n    vs_pos = pos;\n    vs_nrm = nrm;\n\x7d\n\nfloat ComponentMask(float3 vec, out float y, out float z) \x7b\n    y = vec.y;\n    z = vec.z;\n    return vec.x;\n\x7d\n// ------------Physically Based Rendering-----------------\nfloat DistributionGGX(float3 N, float3 H, float roughness) \x7b\n    float a = roughness*roughness;\n    float a2 = a*a;\n    float NdotH = max(dot(N, H), 0.0);\n    float NdotH2 = NdotH*NdotH;\n\n    float nom   = a2;\n    float denom = (NdotH2 * (a2 - 1.0) + 1.0);\n    denom = PI * denom * denom;\n\n    return nom / denom;\n\x7d\nfloat GeometrySchlickGGX(float NdotV, float roughness) \x7b\n    float r = (roughness + 1.0);\n    float k = (r*r) / 8.0;\n\n    float nom   = NdotV;\n    float denom = NdotV * (1.0 - k) + k;\n\n    return nom / denom;\n\x7d\n\nfloat GeometrySmith(float3 N, float3 V, float3 L, float roughness) \x7b\n    float NdotV = max(dot(N, V), 0.0);\n    float NdotL = max(dot(N, L), 0.0);\n    float ggx2 = GeometrySchlickGGX(NdotV, roughness);\n    float ggx1 = GeometrySchlickGGX(NdotL, roughness);\n\n    return ggx1 * ggx2;\n\x7d\n\nfloat3 FresnelSchlick(float cosTheta, float3 F0) \x7b\n    return lerp(F0, 1.0, pow(saturate(1.0 - cosTheta), 5.0));\n\x7d\n\nfloat3 LightPointRadiance(float3 lightPosWS, float3 lightColor, float intensity, float3 posWS, out float3 lightDirWS) \x7b\n    lightDirWS = normalize(lightPosWS - posWS);\n    float distance = length(lightPosWS - posWS);\n    return lightColor * intensity / (distance * distance);\n\x7d\n\nfloat3 PBR(float3 radiance, float3 lightDirWS, float roughness, float metallic, float3 albedo, float3 N, float3 V, float3 posWS) \x7b\n    float3 F0 = 0.04;\n    F0 = lerp(F0, albedo, metallic);\n    // calculate per-light radiance\n    float3 L = normalize(lightDirWS);\n    float3 H = normalize(V + L);\n\n    // Cook-Torrance BRDF\n    float  NDF = DistributionGGX(N, H, roughness);\n    float  G   = GeometrySmith(N, V, L, roughness);\n    float3 F   = FresnelSchlick(saturate(dot(H, V)), F0);\n\n    float3 numerator    = NDF * G * F;\n    float denominator = 4.0 * max(dot(N, V), 0.0) * max(dot(N, L), 0.0);\n    float3 specular = numerator / max(denominator, 0.0001); // max with 0.0001 to prevent divide by zero\n\n    // kS is equal to Fresnel\n    float3 kS = F;\n    // for energy conservation, the diffuse and specular light can\x27t\n    // be above 1.0 (unless the surface emits light); to preserve this\n    // relationship the diffuse component (kD) should equal 1.0 - kS.\n    float3 kD = 1.0 - kS;\n    // multiply kD by the inverse metalness such that only non-metals\n    // have diffuse lighting, or a linear blend if partly metal (pure metals\n    // have no diffuse light).\n    kD *= 1.0 - metallic;\n\n    // scale light by NdotL\n    float NdotL = max(dot(N, L), 0.0);\n\n    // add to outgoing radiance Lo\n    float3 Lo = (kD * albedo / PI + specular) * radiance * NdotL;  // note that we already multiplied the BRDF by the Fresnel (kS) so we won\x27t multiply by kS again\n    return Lo;\n\x7d\nVS_OUTPUT Basic_VS(float4 pos: POSITION, float3 normal: NORMAL, float2 uv: TEXCOORD0, float4 uv1: TEXCOORD1) \x7b\n    VS_OUTPUT vso;\n    float3 posWS = pos.xyz;\n    float3 nrmWS = normal;\n    "

/-- The mutable state of `NodeGraphExample` that `save_fx_file` reads:
the cached generated core code and the chosen output path (`PathBuf`
modelled as its path string). -/
structure NodeGraphExampleState where
  core_gen_code : String
  path_buf : Option String

/-- `NodeGraphExample::save_fx_file` from app.rs, with the single
`std::fs::write` side effect reified as the returned `(path, contents)`
pair (`none` = no write performed): return early when the generated code
is empty, otherwise, when a path has been chosen, write the fixed header,
the generated code and the fixed footer concatenated in that order. -/
def save_fx_file (st : NodeGraphExampleState) : Option (String × String) :=
  if st.core_gen_code.isEmpty then
    none
  else
    match st.path_buf with
    | some p => some (p, HLSL_0 ++ st.core_gen_code ++ HLSL_1)
    | none => none

/-- Checks that `pat` occurs at the front of `l` (the character-list
prefix test used by the substring predicate below). -/
def isPrefixList : List Char → List Char → Bool
  | [], _ => true
  | _ :: _, [] => false
  | a :: as, b :: bs => a == b && isPrefixList as bs

/-- Checks that `pat` occurs contiguously somewhere in `l`. -/
def hasSubList (pat : List Char) : List Char → Bool
  | [] => isPrefixList pat []
  | c :: rest => isPrefixList pat (c :: rest) || hasSubList pat rest

/-- `t` contains `pat` as a contiguous substring. -/
def strHasSub (t pat : String) : Bool :=
  hasSubList pat.data t.data

/-- `s` is a suffix of `t` (as strings). -/
def StrSuffixOf (s t : String) : Prop :=
  ∃ p, t = p ++ s

/-- Concrete test graph: `MakeScalar(value=2.0)` wired into `AddScalar`'s
`v1`, with `v2` left at the stored literal `3.0` (the C3 example graph). -/
def gAdd : MyGraph where
  nodes := fun n =>
    match n with
    | 0 => { label := "MakeScalar", template := .MakeScalar,
             inputs := [("value", 100)], outputs := [("out", 200)] }
    | _ => { label := "AddScalar", template := .AddScalar,
             inputs := [("v1", 101), ("v2", 102)], outputs := [("out", 201)] }
  inputValue := fun i =>
    match i with
    | 100 => .Scalar ⟨"2"⟩
    | 102 => .Scalar ⟨"3"⟩
    | _ => .Scalar ⟨"0"⟩
  connection := fun i => if i = 101 then some 200 else none
  outputNode := fun _ => 0

/-- Concrete test graph for the texture-sample example: a single
`MainTexure2D` node (node id 0) whose `uv` input (slot 100) has no
incoming connection; outputs `out` (slot 200) and `alpha` (slot 201). -/
def gTex : MyGraph where
  nodes := fun _ =>
    { label := "MainTexure2D", template := .MainTexure2D,
      inputs := [("uv", 100)], outputs := [("out", 200), ("alpha", 201)] }
  inputValue := fun _ => .Vec3 (⟨"0"⟩, ⟨"0"⟩, ⟨"0"⟩)
  connection := fun _ => none
  outputNode := fun _ => 0

/-- Concrete test graph with a dependency cycle: node 0's single input
(slot 10) is connected to output slot 20, owned by node 0 itself, so the
traversal recurses into node 0 forever. -/
def gCyc : MyGraph where
  nodes := fun _ =>
    { label := "Clamp01Scalar", template := .Clamp01Scalar,
      inputs := [("value", 10)], outputs := [("out", 20)] }
  inputValue := fun _ => .Scalar ⟨"0"⟩
  connection := fun i => if i = 10 then some 20 else none
  outputNode := fun _ => 0

/-- Concrete one-node test graph with no connections at all: a single
`MakeScalar` node (node id 0, input slot 100, output slot 200). -/
def gOne : MyGraph where
  nodes := fun _ =>
    { label := "MakeScalar", template := .MakeScalar,
      inputs := [("value", 100)], outputs := [("out", 200)] }
  inputValue := fun _ => .Scalar ⟨"0"⟩
  connection := fun _ => none
  outputNode := fun _ => 0

/-- Concrete one-node test graph with a zero-output root: a single
`Main` node (node id 0, input slots 100 (`color`) and 101 (`alpha`),
no outputs), both inputs unconnected. -/
def gMain : MyGraph where
  nodes := fun _ =>
    { label := "Main", template := .Main,
      inputs := [("color", 100), ("alpha", 101)], outputs := [] }
  inputValue := fun i =>
    match i with
    | 100 => .Vec3 (⟨"0"⟩, ⟨"0"⟩, ⟨"0"⟩)
    | _ => .Scalar ⟨"1"⟩
  connection := fun _ => none
  outputNode := fun _ => 0

/-- The list of extra out-parameter declarations
`{type} {cgName}_o{k};\n` the `for k in 1..output_sockets.len()` loop of
`code_gen` emits, for the output sockets from position `k` on. -/
def declsFor (cgName : String) (k : Nat) : List OutputSocketType → List String
  | [] => []
  | o :: rest =>
    (typeStr o.ty ++ " " ++ cgName ++ "_o" ++ toString k ++ ";\n") ::
      declsFor cgName (k + 1) rest

/-- The list of extra out-parameter identifiers `{cgName}_o{k}` the same
loop appends as trailing call arguments. -/
def argsFor (cgName : String) (k : Nat) : List OutputSocketType → List String
  | [] => []
  | _ :: rest => (cgName ++ "_o" ++ toString k) :: argsFor cgName (k + 1) rest

/-- Appending a list of arguments to a partial `params` string with the
`is_first` comma discipline of `code_gen`. -/
def appendArgs (params : String) (isF : Bool) : List String → String
  | [] => params
  | a :: args => appendArgs ((if isF then params else params ++ ", ") ++ a) false args

/-- Closure of a node set under dependency edges: every collected node
has all the producers of its connected inputs collected too. -/
def GClosed (g : MyGraph) (S : List Nat) : Prop :=
  ∀ n ∈ S, ∀ m, GEdge g n m → m ∈ S

/-! ### Lemmas about the postorder traversal -/

theorem postorderInputs_prefix_of (g : MyGraph) (f : Nat)
    (haux : ∀ nid c out, postorder_traversal g f nid c = some out → c <+: out) :
    ∀ is c out,
      postorderInputs g (postorder_traversal g f) is c = some out → c <+: out := by
  intro is
  induction is with
  | nil =>
    intro c out h
    simp only [postorderInputs] at h
    cases h
    exact List.prefix_refl _
  | cons i rest ih =>
    intro c out h
    simp only [postorderInputs] at h
    cases hc : g.connection i with
    | none =>
      rw [hc] at h
      exact ih c out h
    | some oid =>
      rw [hc] at h
      simp only at h
      by_cases hmem : g.outputNode oid ∈ c
      · rw [if_pos hmem] at h
        exact ih c out h
      · rw [if_neg hmem] at h
        cases haux' : postorder_traversal g f (g.outputNode oid) c with
        | none => rw [haux'] at h; cases h
        | some c1 =>
          rw [haux'] at h
          exact (haux _ _ _ haux').trans (ih c1 out h)

theorem postorder_traversal_prefix (g : MyGraph) :
    ∀ f nid c out, postorder_traversal g f nid c = some out → c <+: out := by
  intro f
  induction f with
  | zero => intro nid c out h; cases h
  | succ f ih =>
    intro nid c out h
    simp only [postorder_traversal] at h
    cases hgo : postorderInputs g (postorder_traversal g f) (g.inputIds nid) c with
    | none => rw [hgo] at h; cases h
    | some c2 =>
      rw [hgo] at h
      cases h
      exact (postorderInputs_prefix_of g f ih _ _ _ hgo).trans ⟨[nid], rfl⟩

theorem postorderInputs_mem_of (g : MyGraph) (f : Nat)
    (haux : ∀ nid c out, postorder_traversal g f nid c = some out →
      ∀ x ∈ out, x ∈ c ∨ GReach g nid x) :
    ∀ is c out,
      postorderInputs g (postorder_traversal g f) is c = some out →
      ∀ x ∈ out, x ∈ c ∨
        ∃ i ∈ is, ∃ oid, g.connection i = some oid ∧
          GReach g (g.outputNode oid) x := by
  intro is
  induction is with
  | nil =>
    intro c out h x hx
    simp only [postorderInputs] at h
    cases h
    exact Or.inl hx
  | cons i rest ih =>
    intro c out h x hx
    simp only [postorderInputs] at h
    cases hc : g.connection i with
    | none =>
      rw [hc] at h
      rcases ih c out h x hx with hin | ⟨i', hi', oid, hoid, hr⟩
      · exact Or.inl hin
      · exact Or.inr ⟨i', List.mem_cons_of_mem _ hi', oid, hoid, hr⟩
    | some oid =>
      rw [hc] at h
      simp only at h
      by_cases hmem : g.outputNode oid ∈ c
      · rw [if_pos hmem] at h
        rcases ih c out h x hx with hin | ⟨i', hi', oid', hoid', hr⟩
        · exact Or.inl hin
        · exact Or.inr ⟨i', List.mem_cons_of_mem _ hi', oid', hoid', hr⟩
      · rw [if_neg hmem] at h
        cases haux' : postorder_traversal g f (g.outputNode oid) c with
        | none => rw [haux'] at h; cases h
        | some c1 =>
          rw [haux'] at h
          rcases ih c1 out h x hx with hin | ⟨i', hi', oid', hoid', hr⟩
          · rcases haux _ _ _ haux' x hin with hin' | hr
            · exact Or.inl hin'
            · exact Or.inr ⟨i, List.mem_cons_self _ _, oid, hc, hr⟩
          · exact Or.inr ⟨i', List.mem_cons_of_mem _ hi', oid', hoid', hr⟩

theorem postorder_traversal_mem (g : MyGraph) :
    ∀ f nid c out, postorder_traversal g f nid c = some out →
      ∀ x ∈ out, x ∈ c ∨ GReach g nid x := by
  intro f
  induction f with
  | zero => intro nid c out h; cases h
  | succ f ih =>
    intro nid c out h x hx
    simp only [postorder_traversal] at h
    cases hgo : postorderInputs g (postorder_traversal g f) (g.inputIds nid) c with
    | none => rw [hgo] at h; cases h
    | some c2 =>
      rw [hgo] at h
      cases h
      rcases List.mem_append.mp hx with hx2 | hxn
      · rcases postorderInputs_mem_of g f ih _ _ _ hgo x hx2 with hin | ⟨i, hi, oid, hoid, hr⟩
        · exact Or.inl hin
        · exact Or.inr (Relation.ReflTransGen.head ⟨i, hi, oid, hoid, rfl⟩ hr)
      · rcases List.mem_singleton.mp hxn with rfl
        exact Or.inr Relation.ReflTransGen.refl

theorem postorderInputs_closed_of (g : MyGraph) (f : Nat)
    (haux : ∀ nid c out, postorder_traversal g f nid c = some out →
      GClosed g c → GClosed g out ∧ nid ∈ out) :
    ∀ is c out,
      postorderInputs g (postorder_traversal g f) is c = some out →
      GClosed g c →
      GClosed g out ∧
        ∀ i ∈ is, ∀ oid, g.connection i = some oid → g.outputNode oid ∈ out := by
  intro is
  induction is with
  | nil =>
    intro c out h hcl
    simp only [postorderInputs] at h
    cases h
    exact ⟨hcl, by simp⟩
  | cons i rest ih =>
    intro c out h hcl
    simp only [postorderInputs] at h
    cases hc : g.connection i with
    | none =>
      rw [hc] at h
      rcases ih c out h hcl with ⟨hcl', htgt⟩
      refine ⟨hcl', ?_⟩
      intro i' hi' oid hoid
      rcases List.mem_cons.mp hi' with rfl | hi'
      · rw [hc] at hoid; cases hoid
      · exact htgt i' hi' oid hoid
    | some oid =>
      rw [hc] at h
      simp only at h
      by_cases hmem : g.outputNode oid ∈ c
      · rw [if_pos hmem] at h
        rcases ih c out h hcl with ⟨hcl', htgt⟩
        refine ⟨hcl', ?_⟩
        intro i' hi' oid' hoid'
        rcases List.mem_cons.mp hi' with rfl | hi'
        · rw [hc] at hoid'; cases hoid'
          exact (postorderInputs_prefix_of g f
            (fun nid c out h => postorder_traversal_prefix g f nid c out h)
            _ _ _ h).subset hmem
        · exact htgt i' hi' oid' hoid'
      · rw [if_neg hmem] at h
        cases haux' : postorder_traversal g f (g.outputNode oid) c with
        | none => rw [haux'] at h; cases h
        | some c1 =>
          rw [haux'] at h
          rcases haux _ _ _ haux' hcl with ⟨hcl1, hnext1⟩
          rcases ih c1 out h hcl1 with ⟨hcl', htgt⟩
          refine ⟨hcl', ?_⟩
          intro i' hi' oid' hoid'
          rcases List.mem_cons.mp hi' with rfl | hi'
          · rw [hc] at hoid'; cases hoid'
            exact (postorderInputs_prefix_of g f
              (fun nid c out h => postorder_traversal_prefix g f nid c out h)
              _ _ _ h).subset hnext1
          · exact htgt i' hi' oid' hoid'

theorem postorder_traversal_closed (g : MyGraph) :
    ∀ f nid c out, postorder_traversal g f nid c = some out →
      GClosed g c → GClosed g out ∧ nid ∈ out := by
  intro f
  induction f with
  | zero => intro nid c out h; cases h
  | succ f ih =>
    intro nid c out h hcl
    simp only [postorder_traversal] at h
    cases hgo : postorderInputs g (postorder_traversal g f) (g.inputIds nid) c with
    | none => rw [hgo] at h; cases h
    | some c2 =>
      rw [hgo] at h
      cases h
      rcases postorderInputs_closed_of g f ih _ _ _ hgo hcl with ⟨hcl2, htgt⟩
      constructor
      · intro n hn m hedge
        rcases List.mem_append.mp hn with hn2 | hnn
        · exact List.mem_append_left _ (hcl2 n hn2 m hedge)
        · rcases List.mem_singleton.mp hnn with rfl
          rcases hedge with ⟨i, hi, oid, hoid, rfl⟩
          exact List.mem_append_left _ (htgt i hi oid hoid)
      · simp

theorem GReach.rank_le (g : MyGraph) (rank : Nat → Nat)
    (hr : RankedAcyclic g rank) {a b : Nat} (h : GReach g a b) :
    rank b ≤ rank a := by
  induction h with
  | refl => exact Nat.le_refl _
  | tail _ hedge ih => exact Nat.le_trans (Nat.le_of_lt (hr _ _ hedge)) ih

theorem postorderInputs_nodup_of (g : MyGraph) (f : Nat)
    (haux : ∀ nid c out, postorder_traversal g f nid c = some out →
      c.Nodup → nid ∉ c → out.Nodup) :
    ∀ is c out,
      postorderInputs g (postorder_traversal g f) is c = some out →
      c.Nodup → out.Nodup := by
  intro is
  induction is with
  | nil =>
    intro c out h hnd
    simp only [postorderInputs] at h
    cases h
    exact hnd
  | cons i rest ih =>
    intro c out h hnd
    simp only [postorderInputs] at h
    cases hc : g.connection i with
    | none =>
      rw [hc] at h
      exact ih c out h hnd
    | some oid =>
      rw [hc] at h
      simp only at h
      by_cases hmem : g.outputNode oid ∈ c
      · rw [if_pos hmem] at h
        exact ih c out h hnd
      · rw [if_neg hmem] at h
        cases haux' : postorder_traversal g f (g.outputNode oid) c with
        | none => rw [haux'] at h; cases h
        | some c1 =>
          rw [haux'] at h
          exact ih c1 out h (haux _ _ _ haux' hnd hmem)

theorem postorder_traversal_nodup (g : MyGraph) (rank : Nat → Nat)
    (hr : RankedAcyclic g rank) :
    ∀ f nid c out, postorder_traversal g f nid c = some out →
      c.Nodup → nid ∉ c → out.Nodup := by
  intro f
  induction f with
  | zero => intro nid c out h; cases h
  | succ f ih =>
    intro nid c out h hnd hnin
    simp only [postorder_traversal] at h
    cases hgo : postorderInputs g (postorder_traversal g f) (g.inputIds nid) c with
    | none => rw [hgo] at h; cases h
    | some c2 =>
      rw [hgo] at h
      cases h
      have hnd2 : c2.Nodup := postorderInputs_nodup_of g f ih _ _ _ hgo hnd
      have hnin2 : nid ∉ c2 := by
        intro hmem2
        rcases postorderInputs_mem_of g f
            (fun nid c out h => postorder_traversal_mem g f nid c out h)
            _ _ _ hgo nid hmem2 with hin | ⟨i, hi, oid, hoid, hreach⟩
        · exact hnin hin
        · have hedge : GEdge g nid (g.outputNode oid) := ⟨i, hi, oid, hoid, rfl⟩
          have h1 : rank nid ≤ rank (g.outputNode oid) :=
            GReach.rank_le g rank hr hreach
          exact absurd (Nat.lt_of_le_of_lt h1 (hr _ _ hedge)) (Nat.lt_irrefl _)
      simp [List.nodup_append, hnd2, hnin2]

theorem postorderInputs_isSome_of (g : MyGraph) (rank : Nat → Nat) (f : Nat)
    (haux : ∀ nid c, rank nid < f → (postorder_traversal g f nid c).isSome) :
    ∀ is c,
      (∀ i ∈ is, ∀ oid, g.connection i = some oid →
        rank (g.outputNode oid) < f) →
      (postorderInputs g (postorder_traversal g f) is c).isSome := by
  intro is
  induction is with
  | nil => intro c _; simp [postorderInputs]
  | cons i rest ih =>
    intro c htgt
    simp only [postorderInputs]
    cases hc : g.connection i with
    | none =>
      exact ih c (fun i' hi' oid hoid => htgt i' (List.mem_cons_of_mem _ hi') oid hoid)
    | some oid =>
      simp only
      by_cases hmem : g.outputNode oid ∈ c
      · rw [if_pos hmem]
        exact ih c (fun i' hi' oid' hoid' => htgt i' (List.mem_cons_of_mem _ hi') oid' hoid')
      · rw [if_neg hmem]
        have h1 := haux (g.outputNode oid) c (htgt i (List.mem_cons_self _ _) oid hc)
        cases haux' : postorder_traversal g f (g.outputNode oid) c with
        | none => rw [haux'] at h1; cases h1
        | some c1 =>
          exact ih c1 (fun i' hi' oid' hoid' => htgt i' (List.mem_cons_of_mem _ hi') oid' hoid')

theorem postorder_traversal_isSome (g : MyGraph) (rank : Nat → Nat)
    (hr : RankedAcyclic g rank) :
    ∀ f nid c, rank nid < f → (postorder_traversal g f nid c).isSome := by
  intro f
  induction f with
  | zero => intro nid c h; cases h
  | succ f ih =>
    intro nid c hrank
    simp only [postorder_traversal]
    have hgo : (postorderInputs g (postorder_traversal g f) (g.inputIds nid) c).isSome := by
      apply postorderInputs_isSome_of g rank f ih
      intro i hi oid hoid
      have hedge : GEdge g nid (g.outputNode oid) := ⟨i, hi, oid, hoid, rfl⟩
      exact Nat.lt_of_lt_of_le (hr _ _ hedge) (Nat.lt_succ_iff.mp hrank)
    cases hgo' : postorderInputs g (postorder_traversal g f) (g.inputIds nid) c with
    | none => rw [hgo'] at hgo; cases hgo
    | some c2 => simp

theorem postorder_traversal_last (g : MyGraph) (f nid : Nat) (c out : List Nat)
    (h : postorder_traversal g f nid c = some out) :
    ∃ c2, out = c2 ++ [nid] := by
  cases f with
  | zero => cases h
  | succ f =>
    simp only [postorder_traversal] at h
    cases hgo : postorderInputs g (postorder_traversal g f) (g.inputIds nid) c with
    | none => rw [hgo] at h; cases h
    | some c2 =>
      rw [hgo] at h
      cases h
      exact ⟨c2, rfl⟩

theorem GClosed.reach_mem (g : MyGraph) (S : List Nat) (hcl : GClosed g S)
    {a b : Nat} (ha : a ∈ S) (h : GReach g a b) : b ∈ S := by
  induction h with
  | refl => exact ha
  | tail _ hedge ih => exact hcl _ ih _ hedge

/-- Claim C1: for every acyclic graph and every root node, the postorder
traversal collects exactly the nodes reachable from the root along
connected input sockets (unreachable nodes are excluded), each such node
exactly once even when reachable via multiple paths, and the root is the
last element of the sequence. -/
theorem claim_C1_postorder_exact (g : MyGraph) (rank : Nat → Nat)
    (hacyc : RankedAcyclic g rank) (root fuel : Nat)
    (hfuel : rank root < fuel) :
    ∃ out, postorder_traversal g fuel root [] = some out ∧
      (∀ x, x ∈ out ↔ GReach g root x) ∧
      out.Nodup ∧
      out.getLast? = some root := by
  have hsome := postorder_traversal_isSome g rank hacyc fuel root [] hfuel
  cases hout : postorder_traversal g fuel root [] with
  | none => rw [hout] at hsome; cases hsome
  | some out =>
    refine ⟨out, rfl, ?_, ?_, ?_⟩
    · intro x
      constructor
      · intro hx
        rcases postorder_traversal_mem g fuel root [] out hout x hx with hin | hr
        · cases hin
        · exact hr
      · intro hr
        rcases postorder_traversal_closed g fuel root [] out hout
            (by intro n hn; cases hn) with ⟨hcl, hroot⟩
        exact GClosed.reach_mem g out hcl hroot hr
    · exact postorder_traversal_nodup g rank hacyc fuel root [] out hout
        List.nodup_nil (by simp)
    · rcases postorder_traversal_last g fuel root [] out hout with ⟨c2, rfl⟩
      simp

theorem claim_C1_witness :
    ∃ out, postorder_traversal gOne 1 0 [] = some out ∧
      (∀ x, x ∈ out ↔ GReach gOne 0 x) ∧
      out.Nodup ∧
      out.getLast? = some 0 :=
  claim_C1_postorder_exact gOne (fun _ => 0)
    (by
      intro a b hedge
      rcases hedge with ⟨i, hi, oid, hoid, _⟩
      simp [gOne] at hoid)
    0 1 (by decide)

theorem gCyc_diverges : ∀ fuel c, 0 ∉ c → postorder_traversal gCyc fuel 0 c = none := by
  intro fuel
  induction fuel with
  | zero => intro c _; rfl
  | succ f ih =>
    intro c h
    have h10 : gCyc.inputIds 0 = [10] := rfl
    have hconn : gCyc.connection 10 = some 20 := rfl
    have hnode : gCyc.outputNode 20 = 0 := rfl
    simp only [postorder_traversal, h10, postorderInputs, hconn, hnode]
    rw [if_neg h, ih c h]

/-- Claim C8: on every acyclic graph the postorder traversal terminates
(a recursion depth bounded by a topological rank of the root always
suffices, so the fuel-instrumented model returns a result), while on a
cyclic graph termination is not guaranteed: on the one-node self-loop
graph the recursion exhausts every fuel bound. -/
theorem claim_C8_termination :
    (∀ (g : MyGraph) (rank : Nat → Nat), RankedAcyclic g rank →
      ∀ root fuel, rank root < fuel →
        (postorder_traversal g fuel root []).isSome) ∧
    (∀ fuel, postorder_traversal gCyc fuel 0 [] = none) :=
  ⟨fun g rank h root fuel hf => postorder_traversal_isSome g rank h fuel root [] hf,
   fun fuel => gCyc_diverges fuel [] (by simp)⟩

theorem claim_C8_witness :
    (postorder_traversal gOne 1 0 []).isSome ∧
      postorder_traversal gCyc 5 0 [] = none :=
  ⟨claim_C8_termination.1 gOne (fun _ => 0)
      (by
        intro a b hedge
        rcases hedge with ⟨i, hi, oid, hoid, _⟩
        simp [gOne] at hoid)
      0 1 (by decide),
   claim_C8_termination.2 5⟩

/-- Claim C7: the socket type registry is total over the node-kind
enumeration: both the app.rs registry (over its 20-variant `MyNodeType`)
and the types.rs `NODE_TYPE_INFOS` registry (over its 58-variant
enumeration) contain an entry for every variant, so the hash-map
lookups performed during node construction and code generation always
succeed and the panic branch is unreachable. -/
theorem claim_C7_registry_total :
    (∀ t : MyNodeType,
      ((myNodeTypeInfos.find? (fun p => p.1 == t)).map Prod.snd).isSome = true) ∧
    (∀ t : TypesRs.MyNodeType, (TypesRs.findInfo t).isSome = true) := by
  constructor
  · intro t; cases t <;> rfl
  · intro t; cases t <;> rfl

/-- Claim C9: code generation is a deterministic pure function of the
graph snapshot, the root node and the registry: in this embedding
`code_gen` reads no ambient state, so equal inputs give byte-identical
output. -/
theorem claim_C9_deterministic (g1 g2 : MyGraph) (fuel n1 n2 : Nat)
    (i1 i2 : List (MyNodeType × NodeTypeInfo))
    (hg : g1 = g2) (hn : n1 = n2) (hi : i1 = i2) :
    code_gen g1 fuel n1 i1 = code_gen g2 fuel n2 i2 := by
  subst hg; subst hn; subst hi; rfl

theorem claim_C9_witness :
    code_gen gAdd 2 1 myNodeTypeInfos = code_gen gAdd 2 1 myNodeTypeInfos :=
  claim_C9_deterministic gAdd gAdd 2 1 1 myNodeTypeInfos myNodeTypeInfos rfl rfl rfl

set_option maxRecDepth 100000 in
/-- Claim C2 counterexample: on the single-node graph `gTex` (a
`MainTexure2D` node with its `uv` input unconnected) the generated code
does not contain the call text `MainTexure2D(vso.uv)` verbatim: the
out-parameter for the second output (`alpha`) is appended to the call,
so the closing parenthesis never directly follows `vso.uv`. -/
theorem claim_C2_counterexample :
    strHasSub ((code_gen gTex 1 0 myNodeTypeInfos).getD "")
      "MainTexure2D(vso.uv)" = false := by
  decide

set_option maxRecDepth 100000 in
/-- Claim C2 (amended): on `gTex` the builtin default-resolution string
`vso.uv` of the unconnected `uv` input is substituted verbatim as the
first argument, and the emitted call text is
`MainTexure2D(vso.uv, _0_MainTexure2D_o1)` (the extra trailing argument
being the out-parameter for the `alpha` output). -/
theorem claim_C2_texture_builtin :
    code_gen gTex 1 0 myNodeTypeInfos =
      some ("float  _0_MainTexure2D_o1;\n" ++
        "float3 _0_MainTexure2D_o0 = MainTexure2D(vso.uv, _0_MainTexure2D_o1);\n" ++
        "return float4(_0_MainTexure2D_o0, 1.0);\n") ∧
    strHasSub ((code_gen gTex 1 0 myNodeTypeInfos).getD "")
      "MainTexure2D(vso.uv, _0_MainTexure2D_o1);" = true := by
  exact ⟨by decide, by decide⟩

set_option maxRecDepth 100000 in
/-- Claim C3 counterexample: on the two-node graph `gAdd`
(`MakeScalar(2.0)` into `AddScalar`'s `v1`, `v2` stored as `3.0`, root
`AddScalar`) the generated body does not contain the line
`float _0_MakeScalar_o0 = MakeScalar(2);`: the scalar type text is
`"float "` (with a trailing space) and the format string inserts another
space, so the emitted declarations carry two spaces after `float`. -/
theorem claim_C3_counterexample :
    strHasSub ((code_gen gAdd 2 1 myNodeTypeInfos).getD "")
      "float _0_MakeScalar_o0 = MakeScalar(2);" = false := by
  decide

set_option maxRecDepth 100000 in
/-- Claim C3 (amended): on `gAdd` the generated body is exactly the line
`float  _0_MakeScalar_o0 = MakeScalar(2);` (two spaces after `float`),
then `float  _1_AddScalar_o0 = AddScalar(_0_MakeScalar_o0, 3);`, then
the terminal statement
`return float4(_1_AddScalar_o0, _1_AddScalar_o0, _1_AddScalar_o0, 1.0);`
referencing `_1_AddScalar_o0`. -/
theorem claim_C3_example_body :
    code_gen gAdd 2 1 myNodeTypeInfos =
      some ("float  _0_MakeScalar_o0 = MakeScalar(2);\n" ++
        "float  _1_AddScalar_o0 = AddScalar(_0_MakeScalar_o0, 3);\n" ++
        "return float4(_1_AddScalar_o0, _1_AddScalar_o0, _1_AddScalar_o0, 1.0);\n") := by
  decide

/-- Claim C10: when the cached generated code is empty, `save_fx_file`
returns before performing any write even if an output path is set; a
write happens only when the code is non-empty and a path has been
chosen, and then the written content is exactly the fixed header
`HLSL_0`, the generated code, and the fixed footer `HLSL_1`
concatenated in that order. -/
theorem claim_C10_save_fx (st : NodeGraphExampleState) :
    (st.core_gen_code = "" → save_fx_file st = none) ∧
    (∀ p c, save_fx_file st = some (p, c) →
      st.core_gen_code ≠ "" ∧ st.path_buf = some p ∧
        c = HLSL_0 ++ st.core_gen_code ++ HLSL_1) := by
  constructor
  · intro h
    have he : st.core_gen_code.isEmpty = true := by rw [h]; rfl
    simp [save_fx_file, he]
  · intro p c h
    by_cases he : st.core_gen_code.isEmpty
    · simp [save_fx_file, he] at h
    · cases hp : st.path_buf with
      | none => simp [save_fx_file, he, hp] at h
      | some q =>
        simp only [save_fx_file, he, hp, if_false, Bool.false_eq_true] at h
        rcases h with ⟨rfl, rfl⟩
        refine ⟨?_, rfl, rfl⟩
        intro hempty
        rw [hempty] at he
        exact he rfl

theorem claim_C10_witness :
    save_fx_file ⟨"", some "out.fx"⟩ = none ∧
      ((⟨"x", some "out.fx"⟩ : NodeGraphExampleState).core_gen_code ≠ "" ∧
        (⟨"x", some "out.fx"⟩ : NodeGraphExampleState).path_buf = some "out.fx" ∧
        HLSL_0 ++ "x" ++ HLSL_1 =
          HLSL_0 ++ (⟨"x", some "out.fx"⟩ : NodeGraphExampleState).core_gen_code ++ HLSL_1) :=
  ⟨(claim_C10_save_fx ⟨"", some "out.fx"⟩).1 rfl,
   (claim_C10_save_fx ⟨"x", some "out.fx"⟩).2 "out.fx" (HLSL_0 ++ "x" ++ HLSL_1) rfl⟩

/-- Claim C5: for an input socket with no incoming connection whose
registry default-resolution is a literal (`Ok`), the generated argument
is produced from the value currently stored in that slot, formatted per
`MyValueType`: `float3(x, y, z)` for a vector, bare decimal text for a
scalar; and the argument depends only on that stored value, so after a
connection is removed regeneration falls back to the slot's stored
default and never references the old producer. -/
theorem claim_C5_unconnected_literal (g g2 : MyGraph) (ord ord2 : List Nat)
    (names names2 : List String) (sockets : List InputSocketType)
    (j inputId : Nat)
    (hun : g.connection inputId = none)
    (hlit : ∃ v, (sockets.getD j junkSocket).default = .ok v) :
    inputArgText g ord names sockets j inputId =
      (match g.inputValue inputId with
       | .Vec3 (a, b, c) =>
         "float3(" ++ a.disp ++ ", " ++ b.disp ++ ", " ++ c.disp ++ ")"
       | .Scalar s => s.disp) ∧
    (g2.connection inputId = none → g2.inputValue inputId = g.inputValue inputId →
      inputArgText g2 ord2 names2 sockets j inputId =
        inputArgText g ord names sockets j inputId) := by
  rcases hlit with ⟨v, hv⟩
  have harg : inputArgText g ord names sockets j inputId =
      renderValue (g.inputValue inputId) := by
    unfold inputArgText
    rw [hun, hv]
  constructor
  · rw [harg]
    cases hx : g.inputValue inputId with
    | Vec3 val => rcases val with ⟨a, b, c⟩; rfl
    | Scalar s => rfl
  · intro h1 h2
    rw [harg]
    unfold inputArgText
    rw [h1, hv, h2]

theorem claim_C5_witness :
    inputArgText gAdd [0, 1] ["_0_MakeScalar", "_1_AddScalar"]
        (getInfo myNodeTypeInfos .AddScalar).input_sockets 1 102 =
      (match gAdd.inputValue 102 with
       | .Vec3 (a, b, c) =>
         "float3(" ++ a.disp ++ ", " ++ b.disp ++ ", " ++ c.disp ++ ")"
       | .Scalar s => s.disp) ∧
    (gAdd.connection 102 = none → gAdd.inputValue 102 = gAdd.inputValue 102 →
      inputArgText gAdd [] [] (getInfo myNodeTypeInfos .AddScalar).input_sockets 1 102 =
        inputArgText gAdd [0, 1] ["_0_MakeScalar", "_1_AddScalar"]
          (getInfo myNodeTypeInfos .AddScalar).input_sockets 1 102) :=
  claim_C5_unconnected_literal gAdd gAdd [0, 1] [] ["_0_MakeScalar", "_1_AddScalar"] []
    (getInfo myNodeTypeInfos .AddScalar).input_sockets 1 102 rfl
    ⟨MyValueType.default_scalar, by rfl⟩

theorem strFoldlAppend (l : List String) :
    ∀ x y, List.foldl (fun r s => r ++ s) (x ++ y) l =
      x ++ List.foldl (fun r s => r ++ s) y l := by
  induction l with
  | nil => intro x y; rfl
  | cons a l ih =>
    intro x y
    simp only [List.foldl_cons, String.append_assoc, ih]

theorem strJoin_cons (a : String) (l : List String) :
    String.join (a :: l) = a ++ String.join l := by
  show List.foldl (fun r s => r ++ s) ("" ++ a) l =
    a ++ List.foldl (fun r s => r ++ s) "" l
  rw [String.empty_append]
  calc List.foldl (fun r s => r ++ s) a l
      = List.foldl (fun r s => r ++ s) (a ++ "") l := by rw [String.append_empty]
    _ = a ++ List.foldl (fun r s => r ++ s) "" l := strFoldlAppend l a ""

theorem outParamsAux_eq (cgName : String) :
    ∀ (rest : List OutputSocketType) (k : Nat) (params : String) (isF : Bool),
      outParamsAux cgName k rest params isF =
        (String.join (declsFor cgName k rest),
         appendArgs params isF (argsFor cgName k rest),
         isF && rest.isEmpty) := by
  intro rest
  induction rest with
  | nil =>
    intro k params isF
    simp [outParamsAux, declsFor, argsFor, appendArgs, String.join]
  | cons o rest ih =>
    intro k params isF
    simp only [outParamsAux, declsFor, argsFor, appendArgs, ih,
      List.isEmpty_cons, Bool.false_and, Bool.and_false, strJoin_cons,
      String.append_assoc]

theorem declsFor_length (cgName : String) :
    ∀ (rest : List OutputSocketType) (k : Nat),
      (declsFor cgName k rest).length = rest.length := by
  intro rest
  induction rest with
  | nil => intro k; rfl
  | cons o rest ih => intro k; simp [declsFor, ih]

theorem argsFor_length (cgName : String) :
    ∀ (rest : List OutputSocketType) (k : Nat),
      (argsFor cgName k rest).length = rest.length := by
  intro rest
  induction rest with
  | nil => intro k; rfl
  | cons o rest ih => intro k; simp [argsFor, ih]

/-- Claim C4: for every generated node whose kind has `n ≥ 1` output
sockets, `code_gen` emits exactly `n - 1` extra typed out-parameter
declarations (`{type} {name}_ok;` for `k = 1..n-1`), all placed before
the call line for output 0, and appends exactly those `n - 1`
identifiers `{name}_ok` as trailing arguments of the single generated
call. -/
theorem claim_C4_multi_output (g : MyGraph)
    (infos : List (MyNodeType × NodeTypeInfo)) (ord : List Nat)
    (names : List String) (i nid : Nat)
    (info : NodeTypeInfo) (cgName : String) (pf : String × Bool)
    (params1 : String)
    (hinfo : info = getInfo infos (g.nodes nid).template)
    (hname : cgName = names.getD i "")
    (hpf : pf = paramsFold g ord names info.input_sockets (g.inputIds nid))
    (hp1 : params1 = adHocParams (g.nodes nid).template pf.1)
    (h : info.output_sockets ≠ []) :
    (declsFor cgName 1 (info.output_sockets.drop 1)).length =
      info.output_sockets.length - 1 ∧
    (argsFor cgName 1 (info.output_sockets.drop 1)).length =
      info.output_sockets.length - 1 ∧
    ∃ tail,
      genNodeCode g infos ord names i nid =
        String.join (declsFor cgName 1 (info.output_sockets.drop 1)) ++
          (typeStr (info.output_sockets.getD 0 ⟨"", .Scalar⟩).ty ++ " " ++
            cgName ++ "_o0 = " ++ (g.nodes nid).label ++ "(" ++
            appendArgs params1 pf.2 (argsFor cgName 1 (info.output_sockets.drop 1)) ++
            ");") ++ "\n" ++ tail := by
  subst hinfo hname hpf hp1
  refine ⟨by rw [declsFor_length]; simp, by rw [argsFor_length]; simp, ?_⟩
  have hl : (getInfo infos (g.nodes nid).template).output_sockets.length > 0 :=
    List.length_pos.mpr h
  simp only [genNodeCode, outParamsAux_eq, if_pos hl]
  exact ⟨_, rfl⟩

theorem claim_C4_witness :
    (declsFor "_0_MainTexure2D" 1
        ((getInfo myNodeTypeInfos .MainTexure2D).output_sockets.drop 1)).length =
      (getInfo myNodeTypeInfos .MainTexure2D).output_sockets.length - 1 ∧
    (argsFor "_0_MainTexure2D" 1
        ((getInfo myNodeTypeInfos .MainTexure2D).output_sockets.drop 1)).length =
      (getInfo myNodeTypeInfos .MainTexure2D).output_sockets.length - 1 ∧
    ∃ tail,
      genNodeCode gTex myNodeTypeInfos [0] ["_0_MainTexure2D"] 0 0 =
        String.join (declsFor "_0_MainTexure2D" 1
            ((getInfo myNodeTypeInfos .MainTexure2D).output_sockets.drop 1)) ++
          (typeStr ((getInfo myNodeTypeInfos .MainTexure2D).output_sockets.getD 0
              ⟨"", .Scalar⟩).ty ++ " " ++
            "_0_MainTexure2D" ++ "_o0 = " ++ (gTex.nodes 0).label ++ "(" ++
            appendArgs
              (adHocParams (gTex.nodes 0).template
                (paramsFold gTex [0] ["_0_MainTexure2D"]
                  (getInfo myNodeTypeInfos .MainTexure2D).input_sockets
                  (gTex.inputIds 0)).1)
              (paramsFold gTex [0] ["_0_MainTexure2D"]
                (getInfo myNodeTypeInfos .MainTexure2D).input_sockets
                (gTex.inputIds 0)).2
              (argsFor "_0_MainTexure2D" 1
                ((getInfo myNodeTypeInfos .MainTexure2D).output_sockets.drop 1)) ++
            ");") ++ "\n" ++ tail :=
  claim_C4_multi_output gTex myNodeTypeInfos [0] ["_0_MainTexure2D"] 0 0
    (getInfo myNodeTypeInfos .MainTexure2D) "_0_MainTexure2D"
    (paramsFold gTex [0] ["_0_MainTexure2D"]
      (getInfo myNodeTypeInfos .MainTexure2D).input_sockets (gTex.inputIds 0))
    (adHocParams (gTex.nodes 0).template
      (paramsFold gTex [0] ["_0_MainTexure2D"]
        (getInfo myNodeTypeInfos .MainTexure2D).input_sockets (gTex.inputIds 0)).1)
    rfl rfl rfl rfl (by decide)

theorem strJoin_append (l1 l2 : List String) :
    String.join (l1 ++ l2) = String.join l1 ++ String.join l2 := by
  induction l1 with
  | nil => simp [String.join, String.empty_append]
  | cons a l ih =>
    simp only [List.cons_append, strJoin_cons, ih, String.append_assoc]

theorem genFromOrder_append_last (g : MyGraph)
    (infos : List (MyNodeType × NodeTypeInfo)) (c2 : List Nat) (root : Nat) :
    genFromOrder g infos (c2 ++ [root]) =
      String.join (c2.enum.map (fun p =>
        genNodeCode g infos (c2 ++ [root]) (cgNodeNames g (c2 ++ [root])) p.1 p.2)) ++
      genNodeCode g infos (c2 ++ [root]) (cgNodeNames g (c2 ++ [root]))
        c2.length root := by
  unfold genFromOrder
  rw [List.enum_append, List.map_append, strJoin_append]
  have h1 : List.enumFrom c2.length [root] = [(c2.length, root)] := rfl
  rw [h1]
  simp only [List.map_cons, List.map_nil, strJoin_cons]
  rw [show String.join ([] : List String) = "" from rfl, String.append_empty]

theorem cgNodeNames_last (g : MyGraph) (c2 : List Nat) (root : Nat) :
    (cgNodeNames g (c2 ++ [root])).getD c2.length "" =
      "_" ++ toString c2.length ++ "_" ++ (g.nodes root).label := by
  unfold cgNodeNames
  rw [List.enum_append]
  have h1 : List.enumFrom c2.length [root] = [(c2.length, root)] := rfl
  rw [h1, List.map_append, List.getD_append_right]
  · simp
  · simp

theorem genNodeCode_zero_outputs (g : MyGraph)
    (infos : List (MyNodeType × NodeTypeInfo)) (ord : List Nat)
    (names : List String) (i nid : Nat)
    (h : (getInfo infos (g.nodes nid).template).output_sockets = []) :
    genNodeCode g infos ord names i nid =
      "return " ++ (g.nodes nid).label ++ "(" ++
        adHocParams (g.nodes nid).template
          (paramsFold g ord names
            (getInfo infos (g.nodes nid).template).input_sockets
            (g.inputIds nid)).1 ++ ");" ++ "\n" := by
  simp only [genNodeCode, h]
  rfl

theorem genNodeCode_last_outputs (g : MyGraph)
    (infos : List (MyNodeType × NodeTypeInfo)) (ord : List Nat)
    (names : List String) (i nid : Nat) (o : OutputSocketType)
    (rest : List OutputSocketType)
    (houts : (getInfo infos (g.nodes nid).template).output_sockets = o :: rest)
    (hi : i = ord.length - 1) :
    ∃ pre, genNodeCode g infos ord names i nid =
      pre ++ (match o.ty with
        | .Scalar =>
          "return float4(" ++ names.getD i "" ++ "_o0, " ++ names.getD i "" ++
            "_o0, " ++ names.getD i "" ++ "_o0, 1.0);\n"
        | .Vec3 => "return float4(" ++ names.getD i "" ++ "_o0, 1.0);\n") := by
  subst hi
  simp only [genNodeCode, houts, List.length_cons, List.getD_cons_zero,
    List.drop_succ_cons, List.drop_zero, gt_iff_lt, Nat.succ_pos, if_pos,
    if_true]
  exact ⟨_, rfl⟩

/-- Claim C6: the generated body always ends with a return statement
determined by the root's output signature.  The root is the last node of
the order, and (for well-formed graphs, where connections target real
output slots and slot counts agree with the registry) it is the only
node of the order that can have zero output sockets.  A zero-output root
emits the terminal statement `return {label}({args});`; a root with at
least one output socket gets a type-specific conversion appended after
its call line: `return float4({name}_o0, {name}_o0, {name}_o0, 1.0);`
for a Scalar output 0 and `return float4({name}_o0, 1.0);` for a Vec3
output 0. -/
theorem claim_C6_terminal_return (g : MyGraph) (rank : Nat → Nat)
    (hacyc : RankedAcyclic g rank) (root fuel : Nat) (hfuel : rank root < fuel)
    (infos : List (MyNodeType × NodeTypeInfo))
    (hwf1 : ∀ i oid, g.connection i = some oid →
      oid ∈ (g.nodes (g.outputNode oid)).outputs.map Prod.snd)
    (hwf2 : ∀ n, (g.nodes n).outputs.length =
      (getInfo infos (g.nodes n).template).output_sockets.length) :
    ∃ ord t, postorder_traversal g fuel root [] = some ord ∧
      code_gen g fuel root infos = some t ∧
      (∀ n ∈ ord, n ≠ root →
        (getInfo infos (g.nodes n).template).output_sockets ≠ []) ∧
      ((getInfo infos (g.nodes root).template).output_sockets = [] →
        ∃ args, StrSuffixOf
          ("return " ++ (g.nodes root).label ++ "(" ++ args ++ ");" ++ "\n") t) ∧
      (∀ o rest,
        (getInfo infos (g.nodes root).template).output_sockets = o :: rest →
        StrSuffixOf
          (match o.ty with
           | .Scalar =>
             "return float4(" ++
               ("_" ++ toString (ord.length - 1) ++ "_" ++ (g.nodes root).label) ++
               "_o0, " ++
               ("_" ++ toString (ord.length - 1) ++ "_" ++ (g.nodes root).label) ++
               "_o0, " ++
               ("_" ++ toString (ord.length - 1) ++ "_" ++ (g.nodes root).label) ++
               "_o0, 1.0);\n"
           | .Vec3 =>
             "return float4(" ++
               ("_" ++ toString (ord.length - 1) ++ "_" ++ (g.nodes root).label) ++
               "_o0, 1.0);\n") t) := by
  have hsome := postorder_traversal_isSome g rank hacyc fuel root [] hfuel
  cases hout : postorder_traversal g fuel root [] with
  | none => rw [hout] at hsome; cases hsome
  | some ord =>
    obtain ⟨c2, rfl⟩ := postorder_traversal_last g fuel root [] ord hout
    refine ⟨c2 ++ [root], genFromOrder g infos (c2 ++ [root]), rfl, ?_, ?_, ?_, ?_⟩
    · unfold code_gen
      rw [hout]
      rfl
    · intro n hn hne
      have hreach : GReach g root n := by
        rcases postorder_traversal_mem g fuel root [] _ hout n hn with hin | hr
        · cases hin
        · exact hr
      rcases Relation.ReflTransGen.cases_tail hreach with heq | ⟨b, _, hedge⟩
      · exact absurd heq hne
      · rcases hedge with ⟨i, hi, oid, hconn, hown⟩
        have hmem := hwf1 i oid hconn
        rw [hown] at hmem
        intro hempty
        have hlen := hwf2 n
        rw [hempty] at hlen
        simp only [List.length_nil] at hlen
        rw [List.length_eq_zero] at hlen
        rw [hlen] at hmem
        cases hmem
    · intro houts
      rw [genFromOrder_append_last]
      rw [genNodeCode_zero_outputs g infos _ _ _ _ houts]
      exact ⟨_, _, rfl⟩
    · intro o rest houts
      rw [genFromOrder_append_last]
      obtain ⟨pre, hpre⟩ := genNodeCode_last_outputs g infos (c2 ++ [root])
        (cgNodeNames g (c2 ++ [root])) c2.length root o rest houts (by simp)
      rw [hpre]
      have hlen : (c2 ++ [root]).length - 1 = c2.length := by simp
      rw [hlen, cgNodeNames_last]
      exact ⟨_, (String.append_assoc _ _ _).symm⟩

theorem claim_C6_witness :
    ∃ ord t, postorder_traversal gMain 1 0 [] = some ord ∧
      code_gen gMain 1 0 myNodeTypeInfos = some t ∧
      (∀ n ∈ ord, n ≠ 0 →
        (getInfo myNodeTypeInfos (gMain.nodes n).template).output_sockets ≠ []) ∧
      ((getInfo myNodeTypeInfos (gMain.nodes 0).template).output_sockets = [] →
        ∃ args, StrSuffixOf
          ("return " ++ (gMain.nodes 0).label ++ "(" ++ args ++ ");" ++ "\n") t) ∧
      (∀ o rest,
        (getInfo myNodeTypeInfos (gMain.nodes 0).template).output_sockets = o :: rest →
        StrSuffixOf
          (match o.ty with
           | .Scalar =>
             "return float4(" ++
               ("_" ++ toString (ord.length - 1) ++ "_" ++ (gMain.nodes 0).label) ++
               "_o0, " ++
               ("_" ++ toString (ord.length - 1) ++ "_" ++ (gMain.nodes 0).label) ++
               "_o0, " ++
               ("_" ++ toString (ord.length - 1) ++ "_" ++ (gMain.nodes 0).label) ++
               "_o0, 1.0);\n"
           | .Vec3 =>
             "return float4(" ++
               ("_" ++ toString (ord.length - 1) ++ "_" ++ (gMain.nodes 0).label) ++
               "_o0, 1.0);\n") t) :=
  claim_C6_terminal_return gMain (fun _ => 0)
    (by
      intro a b hedge
      rcases hedge with ⟨i, hi, oid, hoid, _⟩
      simp [gMain] at hoid)
    0 1 (by decide) myNodeTypeInfos
    (by
      intro i oid h
      simp [gMain] at h)
    (fun n => rfl)
